import Mathlib

/-!
Shallow embedding of `noaa.go` (package noaa): a client for api.weather.gov.
HTTP transport and the per-shape JSON decoders are the external collaborators
described by the spec; they are passed in as a `World`.  The process-wide
point cache and the request log are threaded explicitly through a state `St`.
JSON documents are modelled as already-parsed `JsonVal` trees (JSON syntax
parsing is the out-of-scope library); a response body is
`Except String (Except String JsonVal)`: the outer layer is the readability
of the body stream (`ioutil.ReadAll` / decoder stream errors), the inner
layer the syntactic well-formedness of the bytes.
-/

namespace Noaa

/-- A parsed JSON document.  Numeric literals are modelled as integers
(every number a claim touches is integral); object fields are kept in
document order, duplicate keys resolved last-wins by the fold-based
decoders below, matching the streaming decoder. -/
inductive JsonVal : Type where
  | null : JsonVal
  | bool (b : Bool) : JsonVal
  | num (n : Int) : JsonVal
  | str (s : String) : JsonVal
  | arr (xs : List JsonVal) : JsonVal
  | obj (fields : List (String × JsonVal)) : JsonVal

/-- PointsResponse holds the JSON values from /points/<lat,lon>.
Field defaults are the Go zero values. -/
structure PointsResponse where
  ID : String := ""
  CWA : String := ""
  Office : String := ""
  GridX : Int := 0
  GridY : Int := 0
  GridID : String := ""
  County : String := ""
  FireWeatherZone : String := ""
  EndpointForecast : String := ""
  EndpointForecastHourly : String := ""
  EndpointObservationStations : String := ""
  EndpointForecastGridData : String := ""
  Timezone : String := ""
  RadarStation : String := ""
  deriving DecidableEq, Repr

/-- OfficeAddress holds the JSON values for the address of an
OfficeResponse.  The source field `Type` is written `Type'` (keyword). -/
structure OfficeAddress where
  Type' : String := ""
  StreetAddress : String := ""
  Locality : String := ""
  Region : String := ""
  PostalCode : String := ""
  deriving DecidableEq, Repr

/-- OfficeResponse holds the JSON values from /offices/<id>.  The source
field `Type` is written `Type'` (keyword). -/
structure OfficeResponse where
  Type' : String := ""
  URI : String := ""
  ID : String := ""
  Name : String := ""
  Address : OfficeAddress := {}
  Telephone : String := ""
  FaxNumber : String := ""
  Email : String := ""
  SameAs : String := ""
  NWSRegion : String := ""
  ParentOrganization : String := ""
  ResponsibleCounties : List String := []
  ResponsibleForecastZones : List String := []
  ResponsibleFireZones : List String := []
  ApprovedObservationStations : List String := []
  deriving DecidableEq, Repr

/-- StationsResponse holds the JSON values from /points/<lat,lon>/stations.
It has no point back-reference field. -/
structure StationsResponse where
  Stations : List String := []
  deriving DecidableEq, Repr

/-- ForecastElevation holds the JSON values for a forecast response's
elevation.  `value` is a float64 in the source, modelled by `Float`. -/
structure ForecastElevation where
  Value : Float := 0
  Units : String := ""

structure ForecastHourlyElevation where
  Value : Float := 0
  Max : Float := 0
  Min : Float := 0
  UnitCode : String := ""
  QualityControl : String := ""

/-- ForecastResponsePeriod holds the JSON values for a period within a
forecast response. -/
structure ForecastResponsePeriod where
  ID : Int := 0
  Name : String := ""
  StartTime : String := ""
  EndTime : String := ""
  IsDaytime : Bool := false
  Temperature : Float := 0
  TemperatureUnit : String := ""
  TemperatureTrend : String := ""
  WindSpeed : String := ""
  WindDirection : String := ""
  Icon : String := ""
  Summary : String := ""
  Details : String := ""

/-- ForecastResponsePeriodHourly embeds ForecastResponsePeriod (Go struct
embedding). -/
structure ForecastResponsePeriodHourly extends ForecastResponsePeriod

/-- ForecastResponse holds the JSON values from
/gridpoints/<cwa>/<x,y>/forecast.  `Point` is the untagged back-reference
pointer, nil by default. -/
structure ForecastResponse where
  Updated : String := ""
  Units : String := ""
  Elevation : ForecastElevation := {}
  Periods : List ForecastResponsePeriod := []
  Point : Option PointsResponse := none

structure WeatherValueItem where
  Coverage : String := ""
  Weather : String := ""
  Intensity : String := ""

structure WeatherValue where
  ValidTime : String := ""
  Value : List WeatherValueItem := []

structure Weather where
  Values : List WeatherValue := []

structure HazardValueItem where
  Phenomenon : String := ""
  Significance : String := ""
  EventNumber : Int := 0

structure HazardValue where
  ValidTime : String := ""
  Value : List HazardValueItem := []

structure Hazard where
  Values : List HazardValue := []

/-- HourlyForecastResponse holds the JSON values for the hourly forecast. -/
structure HourlyForecastResponse where
  Updated : String := ""
  Units : String := ""
  ForecastGenerator : String := ""
  GeneratedAt : String := ""
  UpdateTime : String := ""
  ValidTimes : String := ""
  Periods : List ForecastResponsePeriodHourly := []
  Point : Option PointsResponse := none

structure GridpointForecastTimeSeriesValue where
  ValidTime : String := ""
  Value : Float := 0

/-- GridpointForecastTimeSeries holds a series of data from a gridpoint
forecast. -/
structure GridpointForecastTimeSeries where
  Uom : String := ""
  Values : List GridpointForecastTimeSeriesValue := []

/-- GridpointForecastResponse holds the JSON values from
/gridpoints/<cwa>/<x,y>. -/
structure GridpointForecastResponse where
  Updated : String := ""
  Elevation : ForecastElevation := {}
  Weather : Weather := {}
  Hazards : Hazard := {}
  Temperature : GridpointForecastTimeSeries := {}
  Dewpoint : GridpointForecastTimeSeries := {}
  MaxTemperature : GridpointForecastTimeSeries := {}
  MinTemperature : GridpointForecastTimeSeries := {}
  RelativeHumidity : GridpointForecastTimeSeries := {}
  ApparentTemperature : GridpointForecastTimeSeries := {}
  HeatIndex : GridpointForecastTimeSeries := {}
  WindChill : GridpointForecastTimeSeries := {}
  SkyCover : GridpointForecastTimeSeries := {}
  WindDirection : GridpointForecastTimeSeries := {}
  WindSpeed : GridpointForecastTimeSeries := {}
  WindGust : GridpointForecastTimeSeries := {}
  ProbabilityOfPrecipitation : GridpointForecastTimeSeries := {}
  QuantitativePrecipitation : GridpointForecastTimeSeries := {}
  IceAccumulation : GridpointForecastTimeSeries := {}
  SnowfallAmount : GridpointForecastTimeSeries := {}
  SnowLevel : GridpointForecastTimeSeries := {}
  CeilingHeight : GridpointForecastTimeSeries := {}
  Visibility : GridpointForecastTimeSeries := {}
  TransportWindSpeed : GridpointForecastTimeSeries := {}
  TransportWindDirection : GridpointForecastTimeSeries := {}
  MixingHeight : GridpointForecastTimeSeries := {}
  HainesIndex : GridpointForecastTimeSeries := {}
  LightningActivityLevel : GridpointForecastTimeSeries := {}
  TwentyFootWindSpeed : GridpointForecastTimeSeries := {}
  TwentyFootWindDirection : GridpointForecastTimeSeries := {}
  WaveHeight : GridpointForecastTimeSeries := {}
  WavePeriod : GridpointForecastTimeSeries := {}
  WaveDirection : GridpointForecastTimeSeries := {}
  PrimarySwellHeight : GridpointForecastTimeSeries := {}
  PrimarySwellDirection : GridpointForecastTimeSeries := {}
  SecondarySwellHeight : GridpointForecastTimeSeries := {}
  SecondarySwellDirection : GridpointForecastTimeSeries := {}
  WavePeriod2 : GridpointForecastTimeSeries := {}
  WindWaveHeight : GridpointForecastTimeSeries := {}
  DispersionIndex : GridpointForecastTimeSeries := {}
  Pressure : GridpointForecastTimeSeries := {}
  ProbabilityOfTropicalStormWinds : GridpointForecastTimeSeries := {}
  ProbabilityOfHurricaneWinds : GridpointForecastTimeSeries := {}
  PotentialOf15mphWinds : GridpointForecastTimeSeries := {}
  PotentialOf25mphWinds : GridpointForecastTimeSeries := {}
  PotentialOf35mphWinds : GridpointForecastTimeSeries := {}
  PotentialOf45mphWinds : GridpointForecastTimeSeries := {}
  PotentialOf20mphWindGusts : GridpointForecastTimeSeries := {}
  PotentialOf30mphWindGusts : GridpointForecastTimeSeries := {}
  PotentialOf40mphWindGusts : GridpointForecastTimeSeries := {}
  PotentialOf50mphWindGusts : GridpointForecastTimeSeries := {}
  PotentialOf60mphWindGusts : GridpointForecastTimeSeries := {}
  GrasslandFireDangerIndex : GridpointForecastTimeSeries := {}
  ProbabilityOfThunder : GridpointForecastTimeSeries := {}
  DavisStabilityIndex : GridpointForecastTimeSeries := {}
  AtmosphericDispersionIndex : GridpointForecastTimeSeries := {}
  LowVisibilityOccurrenceRiskIndex : GridpointForecastTimeSeries := {}
  Stability : GridpointForecastTimeSeries := {}
  RedFlagThreatIndex : GridpointForecastTimeSeries := {}
  Point : Option PointsResponse := none

structure ObservationValue where
  Value : Float := 0
  MaxValue : Float := 0
  MinValue : Float := 0
  UnitCode : String := ""
  QualityControl : String := ""

/-- One item of Observation.PresentWeather (an anonymous struct in the
source). -/
structure PresentWeatherItem where
  Intensity : String := ""
  Modifier : String := ""
  Weather : String := ""
  InVicinity : Bool := false

/-- One item of Observation.CloudLayers (an anonymous struct in the
source). -/
structure CloudLayerItem where
  Base : ObservationValue := {}
  Amount : String := ""

/-- Observation: a decoded snapshot of a single station's latest reading.
`Timestamp` is a time.Time in the source, modelled by its wire string. -/
structure Observation where
  Elevation : ObservationValue := {}
  Station : String := ""
  Timestamp : String := ""
  PresentWeather : List PresentWeatherItem := []
  Temperature : ObservationValue := {}
  Dewpoint : ObservationValue := {}
  WindDirection : ObservationValue := {}
  WindSpeed : ObservationValue := {}
  WindGust : ObservationValue := {}
  BarometricPressure : ObservationValue := {}
  SeaLevelPressure : ObservationValue := {}
  Visibility : ObservationValue := {}
  MaxTemperatureLast24Hours : ObservationValue := {}
  MinTemperatureLast24Hours : ObservationValue := {}
  PrecipitationLastHour : ObservationValue := {}
  PrecipitationLast3Hours : ObservationValue := {}
  PrecipitationLast6Hours : ObservationValue := {}
  RelativeHumidity : ObservationValue := {}
  WindChill : ObservationValue := {}
  HeatIndex : ObservationValue := {}
  CloudLayers : List CloudLayerItem := []

/-- Alert: one active alert record. -/
structure Alert where
  ID : String := ""
  Sent : String := ""
  Effective : String := ""
  Onset : String := ""
  Expires : String := ""
  Ends : String := ""
  Status : String := ""
  Severity : String := ""
  Certainty : String := ""
  Urgency : String := ""
  Event : String := ""
  Sender : String := ""
  SenderName : String := ""
  Headline : String := ""
  Description : String := ""
  Instruction : String := ""
  Response : String := ""
  deriving DecidableEq, Repr

/-- Modelled from the spec: the process-wide client configuration
(`config` is declared outside the file under src/); base URL, user-agent,
accept-header value, and the optional unit-system selector
(empty string, "us" or "si").  Read by every fetch. -/
structure Config where
  BaseURL : String := "https://api.weather.gov"
  UserAgent : String := "github.com/icodealot/noaa"
  Accept : String := "application/ld+json"
  Units : String := ""
  deriving DecidableEq, Repr

/-- An outbound GET request: its URL and the two fixed headers added by
`apiCall`. -/
structure Request where
  url : String
  accept : String
  userAgent : String
  deriving DecidableEq, Repr

/-- The transport's answer for one request: status code, status text and
the body.  The body's outer `Except` is readability of the stream, the
inner one the syntactic validity of the bytes as JSON. -/
structure HttpResponse where
  statusCode : Nat
  status : String
  body : Except String (Except String JsonVal)

/-- Program state threaded through the operations: the process-wide point
cache (`pointsCache`, a Go map from request URL to `*PointsResponse`,
association-list encoded, nil pointers as `none`) and the log of issued
outbound requests (observation of the mock transport's call counter). -/
structure St where
  cache : List (String × Option PointsResponse) := []
  log : List Request := []
  deriving DecidableEq, Repr

/-- A Go (value, error) return pair, plus the runtime-panic outcome of a
nil-pointer dereference. -/
inductive GoRes (α : Type) : Type where
  | ret (val : α) (err : Option String) : GoRes α
  | panicked (msg : String) : GoRes α
  deriving DecidableEq, Repr

/-- The external collaborators: the HTTP transport (indexed by the number
of previously issued requests, so a scripted mock may answer differently
over time) and the JSON shape decoders of the out-of-scope json library
for each response type.  Decoders for pointer-typed targets return
`Option`: `none` models a JSON `null` leaving the nil pointer in place. -/
structure World where
  transport : Nat → Request → Except String HttpResponse
  decodeOffice : JsonVal → Except String (Option OfficeResponse)
  decodeStations : JsonVal → Except String (Option StationsResponse)
  decodeForecast : JsonVal → Except String (Option ForecastResponse)
  decodeGridpoint : JsonVal → Except String (Option GridpointForecastResponse)
  decodeHourly : JsonVal → Except String (Option HourlyForecastResponse)
  decodeObservation : JsonVal → Except String Observation

/-- Fuel-driven worker for Go's strings.Replace(s, old, new, -1): replace
every non-overlapping occurrence of `old`, scanning left to right.  The
fuel (initially the length of `s`) only makes the recursion structural; it
never runs out when `old` is nonempty (`apiCall` always passes a nonempty
pattern; Go's special empty-pattern insertion behavior is not used by the
source). -/
def replaceFuel (old new : List Char) : Nat → List Char → List Char
  | _ + 1, [] => []
  | fuel + 1, c :: rest =>
    if old <+: (c :: rest) then
      new ++ replaceFuel old new fuel ((c :: rest).drop old.length)
    else
      c :: replaceFuel old new fuel rest
  | 0, s => s

/-- strings.Replace(s, old, new, -1). -/
def stringsReplace (s old new : String) : String :=
  ⟨replaceFuel old.data new.data s.data.length s.data⟩

/-- Go map read `pointsCache[endpoint]`: the zero value (nil pointer,
`none`) when the key is absent. -/
def mapGet (c : List (String × Option PointsResponse)) (k : String) :
    Option PointsResponse :=
  match c with
  | [] => none
  | (k', v) :: rest => if k' = k then v else mapGet rest k

/-- Go map write `pointsCache[endpoint] = points`: replace the entry if
the key exists, otherwise add it. -/
def mapSet (c : List (String × Option PointsResponse)) (k : String)
    (v : Option PointsResponse) : List (String × Option PointsResponse) :=
  match c with
  | [] => [(k, v)]
  | (k', v') :: rest =>
    if k' = k then (k, v) :: rest else (k', v') :: mapSet rest k v

/-- Decoding a JSON string value into a Go string field: null has no
effect, a string replaces, anything else is an unmarshal type error. -/
def jStr (cur : String) (v : JsonVal) : Except String String :=
  match v with
  | .null => .ok cur
  | .str s => .ok s
  | _ => .error "json: cannot unmarshal value into Go value of type string"

/-- Decoding a JSON number into a Go int64 field. -/
def jInt (cur : Int) (v : JsonVal) : Except String Int :=
  match v with
  | .null => .ok cur
  | .num n => .ok n
  | _ => .error "json: cannot unmarshal value into Go value of type int64"

/-- One field of a PointsResponse, by its json tag; unknown keys are
ignored.  Tag matching is modelled as exact (Go would additionally accept
a case-insensitive match). -/
def setPointsField (p : PointsResponse) (kv : String × JsonVal) :
    Except String PointsResponse :=
  match kv.1 with
  | "@id" => (jStr p.ID kv.2).map fun s => { p with ID := s }
  | "cwa" => (jStr p.CWA kv.2).map fun s => { p with CWA := s }
  | "forecastOffice" => (jStr p.Office kv.2).map fun s => { p with Office := s }
  | "gridX" => (jInt p.GridX kv.2).map fun n => { p with GridX := n }
  | "gridY" => (jInt p.GridY kv.2).map fun n => { p with GridY := n }
  | "gridId" => (jStr p.GridID kv.2).map fun s => { p with GridID := s }
  | "county" => (jStr p.County kv.2).map fun s => { p with County := s }
  | "fireWeatherZone" =>
    (jStr p.FireWeatherZone kv.2).map fun s => { p with FireWeatherZone := s }
  | "forecast" =>
    (jStr p.EndpointForecast kv.2).map fun s => { p with EndpointForecast := s }
  | "forecastHourly" =>
    (jStr p.EndpointForecastHourly kv.2).map fun s =>
      { p with EndpointForecastHourly := s }
  | "observationStations" =>
    (jStr p.EndpointObservationStations kv.2).map fun s =>
      { p with EndpointObservationStations := s }
  | "forecastGridData" =>
    (jStr p.EndpointForecastGridData kv.2).map fun s =>
      { p with EndpointForecastGridData := s }
  | "timeZone" => (jStr p.Timezone kv.2).map fun s => { p with Timezone := s }
  | "radarStation" =>
    (jStr p.RadarStation kv.2).map fun s => { p with RadarStation := s }
  | _ => .ok p

/-- The json library's behavior for `Decode(&points)` with
`points *PointsResponse` (modelled from the documented semantics of
encoding/json, which is outside src/): a JSON `null` sets the pointer to
nil with no error, an object decodes field-wise into the zero value, and
any other document is a type error. -/
def decodePointsGo (j : JsonVal) : Except String (Option PointsResponse) :=
  match j with
  | .null => .ok none
  | .obj fields => (fields.foldlM setPointsField {}).map some
  | _ =>
    .error "json: cannot unmarshal value into Go value of type noaa.PointsResponse"

/-- One field of an Alert, by its json tag. -/
def setAlertField (a : Alert) (kv : String × JsonVal) : Except String Alert :=
  match kv.1 with
  | "@id" => (jStr a.ID kv.2).map fun s => { a with ID := s }
  | "sent" => (jStr a.Sent kv.2).map fun s => { a with Sent := s }
  | "effective" => (jStr a.Effective kv.2).map fun s => { a with Effective := s }
  | "onset" => (jStr a.Onset kv.2).map fun s => { a with Onset := s }
  | "expires" => (jStr a.Expires kv.2).map fun s => { a with Expires := s }
  | "ends" => (jStr a.Ends kv.2).map fun s => { a with Ends := s }
  | "status" => (jStr a.Status kv.2).map fun s => { a with Status := s }
  | "severity" => (jStr a.Severity kv.2).map fun s => { a with Severity := s }
  | "certainty" => (jStr a.Certainty kv.2).map fun s => { a with Certainty := s }
  | "urgency" => (jStr a.Urgency kv.2).map fun s => { a with Urgency := s }
  | "event" => (jStr a.Event kv.2).map fun s => { a with Event := s }
  | "sender" => (jStr a.Sender kv.2).map fun s => { a with Sender := s }
  | "senderName" => (jStr a.SenderName kv.2).map fun s => { a with SenderName := s }
  | "headline" => (jStr a.Headline kv.2).map fun s => { a with Headline := s }
  | "description" =>
    (jStr a.Description kv.2).map fun s => { a with Description := s }
  | "instruction" =>
    (jStr a.Instruction kv.2).map fun s => { a with Instruction := s }
  | "response" => (jStr a.Response kv.2).map fun s => { a with Response := s }
  | _ => .ok a

/-- One element of the `@graph` array: an object decodes into a zero
Alert field-wise, null leaves a zero Alert, anything else is a type
error. -/
def decodeAlertVal (j : JsonVal) : Except String Alert :=
  match j with
  | .null => .ok {}
  | .obj fields => fields.foldlM setAlertField {}
  | _ => .error "json: cannot unmarshal value into Go value of type noaa.Alert"

/-- The `[]Alert` value of the `@graph` key. -/
def decodeAlertsArray (j : JsonVal) : Except String (List Alert) :=
  match j with
  | .null => .ok []
  | .arr xs => xs.mapM decodeAlertVal
  | _ => .error "json: cannot unmarshal value into Go value of type []noaa.Alert"

/-- One field of the local wrapper `Response struct { Data []Alert }`
with tag `@graph`. -/
def setAlertsRespField (cur : List Alert) (kv : String × JsonVal) :
    Except String (List Alert) :=
  match kv.1 with
  | "@graph" => decodeAlertsArray kv.2
  | _ => .ok cur

/-- json.Unmarshal(data, &r) for the alerts wrapper: a missing `@graph`
key leaves the zero (empty) collection with no error. -/
def unmarshalAlertsResponse (j : JsonVal) : Except String (List Alert) :=
  match j with
  | .null => .ok []
  | .obj fields => fields.foldlM setAlertsRespField []
  | _ =>
    .error "json: cannot unmarshal value into Go value of type noaa.Response"

/-- Call the weather.gov API: rewrite every `http://` to `https://`, add
the two configured headers, issue the GET (recording it in the log), and
turn any non-200 status into the error `"<code> <status>"`
(errors.New(fmt.Sprintf("%d %s", res.StatusCode, res.Status))). -/
def apiCall (w : World) (config : Config) (endpoint : String) (st : St) :
    Except String HttpResponse × St :=
  let endpoint := stringsReplace endpoint "http://" "https://"
  let req : Request :=
    { url := endpoint, accept := config.Accept, userAgent := config.UserAgent }
  let st' : St := { st with log := st.log ++ [req] }
  match w.transport st.log.length req with
  | .error e => (.error e, st')
  | .ok res =>
    if res.statusCode ≠ 200 then
      (.error (toString res.statusCode ++ " " ++ res.status), st')
    else
      (.ok res, st')

/-- json.NewDecoder(res.Body).Decode(&x): a stream read error, a JSON
syntax error, or a shape mismatch, in that order. -/
def decodeBody {α : Type} (dec : JsonVal → Except String α)
    (res : HttpResponse) : Except String α :=
  match res.body with
  | .error e => .error e
  | .ok (.error e) => .error e
  | .ok (.ok j) => dec j

/-- The endpoint string fmt.Sprintf("%s/points/%s,%s", config.BaseURL,
lat, lon) built by Points, which is also its cache key. -/
def pointsURL (config : Config) (lat lon : String) : String :=
  config.BaseURL ++ "/points/" ++ lat ++ "," ++ lon

/-- Points returns a set of useful endpoints for a given <lat,lon> or
returns a cached object if appropriate (`pointsCache[endpoint] != nil`). -/
def Points (w : World) (config : Config) (lat lon : String) (st : St) :
    GoRes (Option PointsResponse) × St :=
  let endpoint := pointsURL config lat lon
  match mapGet st.cache endpoint with
  | some p => (.ret (some p) none, st)
  | none =>
    match apiCall w config endpoint st with
    | (.error e, st') => (.ret none (some e), st')
    | (.ok res, st') =>
      match decodeBody decodePointsGo res with
      | .error e => (.ret none (some e), st')
      | .ok points =>
        (.ret points none, { st' with cache := mapSet st'.cache endpoint points })

/-- Office returns details for a specific office identified by its ID. -/
def Office (w : World) (config : Config) (id : String) (st : St) :
    GoRes (Option OfficeResponse) × St :=
  let endpoint := config.BaseURL ++ "/offices/" ++ id
  match apiCall w config endpoint st with
  | (.error e, st') => (.ret none (some e), st')
  | (.ok res, st') =>
    match decodeBody w.decodeOffice res with
    | .error e => (.ret none (some e), st')
    | .ok office => (.ret office none, st')

/-- Stations returns an array of observation station IDs (urls).  Reading
`point.EndpointObservationStations` from a nil point is a runtime panic. -/
def Stations (w : World) (config : Config) (lat lon : String) (st : St) :
    GoRes (Option StationsResponse) × St :=
  match Points w config lat lon st with
  | (.ret _ (some e), st₁) => (.ret none (some e), st₁)
  | (.ret none none, st₁) =>
    (.panicked "runtime error: invalid memory address or nil pointer dereference", st₁)
  | (.ret (some point) none, st₁) =>
    match apiCall w config point.EndpointObservationStations st₁ with
    | (.error e, st₂) => (.ret none (some e), st₂)
    | (.ok res, st₂) =>
      match decodeBody w.decodeStations res with
      | .error e => (.ret none (some e), st₂)
      | .ok stations => (.ret stations none, st₂)
  | (.panicked m, st₁) => (.panicked m, st₁)

/-- Forecast returns an array of forecast observations; a configured
unit-system is appended as `?units=<value>`, and the resolved point is
attached to the result (`forecast.Point = point`, a panic if the decoded
forecast pointer is nil). -/
def Forecast (w : World) (config : Config) (lat lon : String) (st : St) :
    GoRes (Option ForecastResponse) × St :=
  match Points w config lat lon st with
  | (.ret _ (some e), st₁) => (.ret none (some e), st₁)
  | (.ret none none, st₁) =>
    (.panicked "runtime error: invalid memory address or nil pointer dereference", st₁)
  | (.ret (some point) none, st₁) =>
    let query := if config.Units ≠ "" then "?units=" ++ config.Units else ""
    match apiCall w config (point.EndpointForecast ++ query) st₁ with
    | (.error e, st₂) => (.ret none (some e), st₂)
    | (.ok res, st₂) =>
      match decodeBody w.decodeForecast res with
      | .error e => (.ret none (some e), st₂)
      | .ok none =>
        (.panicked "runtime error: invalid memory address or nil pointer dereference", st₂)
      | .ok (some forecast) =>
        (.ret (some { forecast with Point := some point }) none, st₂)
  | (.panicked m, st₁) => (.panicked m, st₁)

/-- GridpointForecast returns an array of raw forecast data. -/
def GridpointForecast (w : World) (config : Config) (lat long : String)
    (st : St) : GoRes (Option GridpointForecastResponse) × St :=
  match Points w config lat long st with
  | (.ret _ (some e), st₁) => (.ret none (some e), st₁)
  | (.ret none none, st₁) =>
    (.panicked "runtime error: invalid memory address or nil pointer dereference", st₁)
  | (.ret (some point) none, st₁) =>
    let query := if config.Units ≠ "" then "?units=" ++ config.Units else ""
    match apiCall w config (point.EndpointForecastGridData ++ query) st₁ with
    | (.error e, st₂) => (.ret none (some e), st₂)
    | (.ok res, st₂) =>
      match decodeBody w.decodeGridpoint res with
      | .error e => (.ret none (some e), st₂)
      | .ok none =>
        (.panicked "runtime error: invalid memory address or nil pointer dereference", st₂)
      | .ok (some forecast) =>
        (.ret (some { forecast with Point := some point }) none, st₂)
  | (.panicked m, st₁) => (.panicked m, st₁)

/-- HourlyForecast returns an array of raw hourly forecast data. -/
def HourlyForecast (w : World) (config : Config) (lat long : String)
    (st : St) : GoRes (Option HourlyForecastResponse) × St :=
  match Points w config lat long st with
  | (.ret _ (some e), st₁) => (.ret none (some e), st₁)
  | (.ret none none, st₁) =>
    (.panicked "runtime error: invalid memory address or nil pointer dereference", st₁)
  | (.ret (some point) none, st₁) =>
    let query := if config.Units ≠ "" then "?units=" ++ config.Units else ""
    match apiCall w config (point.EndpointForecastHourly ++ query) st₁ with
    | (.error e, st₂) => (.ret none (some e), st₂)
    | (.ok res, st₂) =>
      match decodeBody w.decodeHourly res with
      | .error e => (.ret none (some e), st₂)
      | .ok none =>
        (.panicked "runtime error: invalid memory address or nil pointer dereference", st₂)
      | .ok (some forecast) =>
        (.ret (some { forecast with Point := some point }) none, st₂)
  | (.panicked m, st₁) => (.panicked m, st₁)

/-- LatestStationObservation fetches `<stationID>/observations/latest`;
a fetch error is wrapped by fmt.Errorf("failed to get latest
observations: %v", err), a decode error is returned as is. -/
def LatestStationObservation (w : World) (config : Config)
    (stationID : String) (st : St) : GoRes Observation × St :=
  let endpoint := stationID ++ "/observations/latest"
  match apiCall w config endpoint st with
  | (.error e, st') =>
    (.ret {} (some ("failed to get latest observations: " ++ e)), st')
  | (.ok res, st') =>
    match decodeBody w.decodeObservation res with
    | .error e => (.ret {} (some e), st')
    | .ok observation => (.ret observation none, st')

/-- Alerts fetches the active alerts for <lat,lon> with a two-step
decode: read the whole body, then json.Unmarshal into the wrapper whose
`@graph` field holds the collection.  Every failure returns the empty
collection alongside the error. -/
def Alerts (w : World) (config : Config) (lat long : String) (st : St) :
    GoRes (List Alert) × St :=
  let u := config.BaseURL ++ "/alerts/active?point=" ++ lat ++ "," ++ long
  match apiCall w config u st with
  | (.error e, st') => (.ret [] (some e), st')
  | (.ok res, st') =>
    match res.body with
    | .error e => (.ret [] (some e), st')
    | .ok parsed =>
      match parsed with
      | .error e => (.ret [] (some e), st')
      | .ok j =>
        match unmarshalAlertsResponse j with
        | .error e => (.ret [] (some e), st')
        | .ok alerts => (.ret alerts none, st')

/-! ### Concrete scenarios (mock transports and configurations) -/

/-- The default configuration (the spec's startup values). -/
def cfg0 : Config := {}

/-- The default configuration with the "us" unit-system selected. -/
def cfgUS : Config := { Units := "us" }

/-- The empty starting state: empty cache, no requests issued yet. -/
def st0 : St := {}

/-- A 200 response whose readable body parses to `j`. -/
def okJson (j : JsonVal) : HttpResponse :=
  { statusCode := 200, status := "200 OK", body := .ok (.ok j) }

/-- Baseline mock world: the transport fails and every abstract decoder
rejects; scenario worlds below override single fields. -/
def w0 : World :=
  { transport := fun _ _ => .error "dial tcp: connection refused"
    decodeOffice := fun _ => .error "office decode error"
    decodeStations := fun _ => .error "stations decode error"
    decodeForecast := fun _ => .error "forecast decode error"
    decodeGridpoint := fun _ => .error "gridpoint decode error"
    decodeHourly := fun _ => .error "hourly decode error"
    decodeObservation := fun _ => .error "observation decode error" }

/-- A points document carrying the four dependent endpoint URLs. -/
def pBody : JsonVal :=
  .obj [("forecast", .str "https://fx/f"),
    ("forecastHourly", .str "https://fx/h"),
    ("forecastGridData", .str "https://fx/g"),
    ("observationStations", .str "https://fx/s")]

/-- The PointsResponse that `pBody` decodes to. -/
def pX : PointsResponse :=
  { EndpointForecast := "https://fx/f"
    EndpointForecastHourly := "https://fx/h"
    EndpointForecastGridData := "https://fx/g"
    EndpointObservationStations := "https://fx/s" }

/-- Mock world: every request gets 200 with body `null` (the JSON literal
null decodes into a nil `*PointsResponse` with no error). -/
def wNull : World := { w0 with transport := fun _ _ => .ok (okJson .null) }

/-- Mock world: every request gets 200 with the points document. -/
def wPts : World := { w0 with transport := fun _ _ => .ok (okJson pBody) }

/-- Mock world: the first request gets 200 `null`, later requests get a
200 empty object (upstream data changing between calls). -/
def wFlip : World :=
  { w0 with transport := fun n _ =>
      if n = 0 then .ok (okJson .null) else .ok (okJson (.obj [])) }

/-- A 404 response with status text "404 Not Found". -/
def resp404 : HttpResponse :=
  { statusCode := 404, status := "404 Not Found", body := .ok (.ok .null) }

/-- Mock world: every request gets a 404. -/
def w404 : World := { w0 with transport := fun _ _ => .ok resp404 }

/-- Mock world for successful forecast-shaped calls: points resolve to
`pX` and the shape decoders accept with zero-valued results. -/
def wAll : World :=
  { wPts with
    decodeForecast := fun _ => .ok (some {})
    decodeGridpoint := fun _ => .ok (some {})
    decodeHourly := fun _ => .ok (some {})
    decodeStations := fun _ => .ok (some {}) }

/-- The alerts envelope `{"@graph":[{"@id":"a1","event":"Flood Warning"}]}`. -/
def alertsGraphBody : JsonVal :=
  .obj [("@graph", .arr [.obj [("@id", .str "a1"), ("event", .str "Flood Warning")]])]

/-- Mock world: every request gets 200 with the alerts envelope. -/
def wAlerts1 : World :=
  { w0 with transport := fun _ _ => .ok (okJson alertsGraphBody) }

/-- Mock world: every request gets 200 with body `{}`. -/
def wAlerts2 : World :=
  { w0 with transport := fun _ _ => .ok (okJson (.obj [])) }

/-- The request issued for the points lookup of ("1","2") under the
default configuration. -/
def reqPts : Request :=
  { url := "https://api.weather.gov/points/1,2",
    accept := "application/ld+json", userAgent := "github.com/icodealot/noaa" }

/-- The state after one successful points lookup of ("1","2") in `wPts`. -/
def stP1 : St :=
  { cache := [("https://api.weather.gov/points/1,2", some pX)], log := [reqPts] }

/-- The claim's reading of the scheme normalization, written from the
spec's words: rewrite only a leading `http://` prefix, leave everything
else as given.  Compared against the source's global rewrite. -/
def leadingSchemeRewriteSpec (e : String) : String :=
  if "http://".data <+: e.data then ⟨"https://".data ++ e.data.drop 7⟩ else e

/-! ### Properties of the scheme rewrite -/

/-- The pattern `apiCall` replaces, as a char list. -/
def httpL : List Char := "http://".data

/-- The replacement `apiCall` inserts, as a char list. -/
def httpsL : List Char := "https://".data

/-- The rewrite applied by `apiCall` to an endpoint's characters. -/
def replaceHttp (s : List Char) : List Char :=
  replaceFuel httpL httpsL s.length s

theorem stringsReplace_data (e : String) :
    (stringsReplace e "http://" "https://").data = replaceHttp e.data := rfl

theorem replaceFuel_nil (old new : List Char) (f : Nat) :
    replaceFuel old new f [] = [] := by
  cases f <;> rfl

theorem replaceFuel_cons (old new : List Char) (f : Nat) (c : Char)
    (rest : List Char) :
    replaceFuel old new (f + 1) (c :: rest) =
      if old <+: (c :: rest) then
        new ++ replaceFuel old new f ((c :: rest).drop old.length)
      else
        c :: replaceFuel old new f rest := rfl

theorem replaceFuel_congr {old : List Char} (new : List Char)
    (hold : old ≠ []) :
    ∀ (f₁ f₂ : Nat) (s : List Char), s.length ≤ f₁ → s.length ≤ f₂ →
      replaceFuel old new f₁ s = replaceFuel old new f₂ s := by
  intro f₁
  induction f₁ with
  | zero =>
    intro f₂ s h1 _
    have hs : s = [] := List.eq_nil_of_length_eq_zero (Nat.le_zero.mp h1)
    subst hs
    rw [replaceFuel_nil, replaceFuel_nil]
  | succ f ih =>
    intro f₂ s h1 h2
    cases s with
    | nil => rw [replaceFuel_nil, replaceFuel_nil]
    | cons c rest =>
      cases f₂ with
      | zero => simp at h2
      | succ f₂ =>
        rw [replaceFuel_cons, replaceFuel_cons]
        have holdlen : 1 ≤ old.length := by
          cases old with
          | nil => exact absurd rfl hold
          | cons a t => simp
        by_cases hp : old <+: (c :: rest)
        · rw [if_pos hp, if_pos hp]
          have hd1 : ((c :: rest).drop old.length).length ≤ f := by
            rw [List.length_drop]
            simp only [List.length_cons] at h1 ⊢
            omega
          have hd2 : ((c :: rest).drop old.length).length ≤ f₂ := by
            rw [List.length_drop]
            simp only [List.length_cons] at h2 ⊢
            omega
          rw [ih f₂ _ hd1 hd2]
        · rw [if_neg hp, if_neg hp]
          have hr1 : rest.length ≤ f := by
            simp only [List.length_cons] at h1; omega
          have hr2 : rest.length ≤ f₂ := by
            simp only [List.length_cons] at h2; omega
          rw [ih f₂ rest hr1 hr2]

theorem httpL_ne_nil : httpL ≠ [] := by decide

theorem httpL_len : httpL.length = 7 := rfl

theorem httpsL_len : httpsL.length = 8 := rfl

theorem replaceHttp_nil : replaceHttp [] = [] := rfl

theorem replaceHttp_pos_head {s : List Char} (h : httpL <+: s) :
    replaceHttp s = httpsL ++ replaceHttp (s.drop 7) := by
  cases s with
  | nil =>
    have := List.prefix_nil.mp h
    exact absurd this httpL_ne_nil
  | cons c rest =>
    show replaceFuel httpL httpsL (rest.length + 1) (c :: rest) = _
    rw [replaceFuel_cons, if_pos h]
    congr 1
    exact replaceFuel_congr httpsL httpL_ne_nil rest.length _ _
      (by rw [List.length_drop, httpL_len]; simp only [List.length_cons] at *; omega)
      (le_of_eq rfl)

theorem replaceHttp_neg_head {c : Char} {rest : List Char}
    (h : ¬ httpL <+: (c :: rest)) :
    replaceHttp (c :: rest) = c :: replaceHttp rest := by
  show replaceFuel httpL httpsL (rest.length + 1) (c :: rest) = _
  rw [replaceFuel_cons, if_neg h]
  rfl

theorem strDataAppend (a b : String) : (a ++ b).data = a.data ++ b.data := by
  cases a; cases b; rfl

/-- A prefix is an occurrence. -/
theorem pfxIn {p l : List Char} (h : p <+: l) : p <:+: l := by
  obtain ⟨t, ht⟩ := h
  exact ⟨[], t, by simpa using ht⟩

/-- An occurrence in the tail is an occurrence. -/
theorem inCons {p l : List Char} (c : Char) (h : p <:+: l) :
    p <:+: c :: l := by
  obtain ⟨u, t, h⟩ := h
  exact ⟨c :: u, t, by simp [← h]⟩

theorem sfxCons {p l : List Char} (c : Char) (h : p <:+ l) :
    p <:+ c :: l := by
  obtain ⟨u, h⟩ := h
  exact ⟨c :: u, by simp [← h]⟩

/-- Splitting a prefix of an appended list. -/
theorem pfxSplit {p x y : List Char} (h : p <+: x ++ y) :
    p <+: x ∨ ∃ q, p = x ++ q ∧ q <+: y := by
  rcases le_or_lt p.length x.length with hl | hl
  · left
    have hp := List.prefix_iff_eq_take.mp h
    rw [List.take_append_of_le_length hl] at hp
    rw [hp]
    exact List.take_prefix _ _
  · right
    rcases List.prefix_or_prefix_of_prefix h ⟨y, rfl⟩ with h1 | h1
    · exact absurd h1.length_le (by omega)
    · obtain ⟨q, hq⟩ := h1
      refine ⟨q, hq.symm, ?_⟩
      rw [← hq] at h
      exact (List.prefix_append_right_inj x).mp h

/-- An occurrence in an appended list lies in the left part, in the right
part, or crosses the boundary. -/
theorem inSplit {p x y : List Char} (h : p <:+: x ++ y) :
    p <:+: x ∨ p <:+: y ∨
      ∃ p₁ p₂, p = p₁ ++ p₂ ∧ p₁ ≠ [] ∧ p₂ ≠ [] ∧ p₁ <:+ x ∧ p₂ <+: y := by
  induction x with
  | nil => right; left; simpa using h
  | cons c x' ih =>
    rw [List.cons_append, List.infix_cons_iff] at h
    rcases h with h | h
    · rcases pfxSplit (x := c :: x') (y := y) h with h1 | ⟨q, hq, hqy⟩
      · exact Or.inl (pfxIn h1)
      · rcases eq_or_ne q [] with rfl | hne
        · rw [List.append_nil] at hq
          exact Or.inl ⟨[], [], by simp [hq]⟩
        · exact Or.inr (Or.inr ⟨c :: x', q, hq, by simp, hne, ⟨[], rfl⟩, hqy⟩)
    · rcases ih h with h1 | h1 | ⟨p₁, p₂, hp, h1, h2, h3, h4⟩
      · exact Or.inl (inCons c h1)
      · exact Or.inr (Or.inl h1)
      · exact Or.inr (Or.inr ⟨p₁, p₂, hp, h1, h2, sfxCons c h3, h4⟩)

/-- After the rewrite, no position can start an un-rewritten copy of any
proper tail `httpL.drop k` of the pattern unless the input started one. -/
theorem noNewPfx : ∀ (f : Nat) (s : List Char), s.length ≤ f →
    ∀ (k : Nat), k ≤ 6 → ¬ httpL.drop k <+: s →
      ¬ httpL.drop k <+: replaceFuel httpL httpsL f s := by
  intro f
  induction f with
  | zero =>
    intro s h1 k hk _
    have hs : s = [] := List.eq_nil_of_length_eq_zero (Nat.le_zero.mp h1)
    subst hs
    rw [replaceFuel_nil]
    intro hcon
    have hq := List.prefix_nil.mp hcon
    have : (httpL.drop k).length = 7 - k := by
      rw [List.length_drop, httpL_len]
    rw [hq] at this
    simp at this
    omega
  | succ f ih =>
    intro s hs k hk hq
    cases s with
    | nil =>
      rw [replaceFuel_nil]
      intro hcon
      have hq2 := List.prefix_nil.mp hcon
      have : (httpL.drop k).length = 7 - k := by
        rw [List.length_drop, httpL_len]
      rw [hq2] at this
      simp at this
      omega
    | cons c rest =>
      rw [replaceFuel_cons]
      by_cases hp : httpL <+: (c :: rest)
      · rw [if_pos hp]
        intro hcon
        rcases pfxSplit hcon with h1 | ⟨q, hq', _⟩
        · have htake := List.prefix_iff_eq_take.mp h1
          have hl : (httpL.drop k).length = 7 - k := by
            rw [List.length_drop, httpL_len]
          rw [hl] at htake
          interval_cases k <;> exact absurd htake (by decide)
        · have hlq : (httpL.drop k).length = 7 - k := by
            rw [List.length_drop, httpL_len]
          have hlq2 : (httpL.drop k).length = httpsL.length + q.length := by
            rw [hq', List.length_append]
          rw [httpsL_len] at hlq2
          omega
      · rw [if_neg hp]
        intro hcon
        have hk7 : k < httpL.length := by rw [httpL_len]; omega
        rw [List.drop_eq_getElem_cons hk7] at hcon hq
        rw [List.cons_prefix_cons] at hcon
        obtain ⟨hc, htail⟩ := hcon
        by_cases hk6 : k = 6
        · subst hk6
          exact hq (List.cons_prefix_cons.mpr
            ⟨hc, by rw [show httpL.drop 7 = [] from rfl]; exact List.nil_prefix⟩)
        · have hrest : rest.length ≤ f := by
            simp only [List.length_cons] at hs; omega
          have hq2 : ¬ httpL.drop (k + 1) <+: rest := fun hcon2 =>
            hq (List.cons_prefix_cons.mpr ⟨hc, hcon2⟩)
          exact ih rest hrest (k + 1) (by omega) hq2 htail

/-- The rewrite's output never contains the pattern `http://`. -/
theorem noResidual : ∀ (f : Nat) (s : List Char), s.length ≤ f →
    ¬ httpL <:+: replaceFuel httpL httpsL f s := by
  intro f
  induction f with
  | zero =>
    intro s h1
    have hs : s = [] := List.eq_nil_of_length_eq_zero (Nat.le_zero.mp h1)
    subst hs
    rw [replaceFuel_nil]
    decide
  | succ f ih =>
    intro s hs
    cases s with
    | nil => rw [replaceFuel_nil]; decide
    | cons c rest =>
      rw [replaceFuel_cons]
      by_cases hp : httpL <+: (c :: rest)
      · rw [if_pos hp]
        intro hcon
        rcases inSplit hcon with h1 | h1 | ⟨p₁, p₂, hpp, hne1, hne2, hsfx, _⟩
        · exact absurd h1 (by decide)
        · have hd : ((c :: rest).drop httpL.length).length ≤ f := by
            rw [List.length_drop, httpL_len]
            simp only [List.length_cons] at hs ⊢
            omega
          exact ih _ hd h1
        · have h1 : p₁ = List.take p₁.length httpL := by
            rw [hpp, List.take_left]
          have hl1 : p₁.length + p₂.length = 7 := by
            have := congrArg List.length hpp
            rw [httpL_len, List.length_append] at this
            omega
          have hge : 0 < p₁.length := List.length_pos.mpr hne1
          have hlt : 0 < p₂.length := List.length_pos.mpr hne2
          have : p₁.length = 1 ∨ p₁.length = 2 ∨ p₁.length = 3 ∨
              p₁.length = 4 ∨ p₁.length = 5 ∨ p₁.length = 6 := by omega
          rcases this with h | h | h | h | h | h <;>
            (rw [h] at h1; rw [h1] at hsfx; exact absurd hsfx (by decide))
      · rw [if_neg hp]
        intro hcon
        rw [List.infix_cons_iff] at hcon
        have hrest : rest.length ≤ f := by
          simp only [List.length_cons] at hs; omega
        rcases hcon with h1 | h1
        · have h0 : ¬ httpL.drop 0 <+: (c :: rest) := by
            rw [List.drop_zero]; exact hp
          have := noNewPfx (f + 1) (c :: rest) hs 0 (by omega) h0
          rw [List.drop_zero, replaceFuel_cons, if_neg hp] at this
          exact this h1
        · exact ih rest hrest h1

/-- Every input occurrence of the pattern yields an occurrence of the
replacement in the output. -/
theorem posOccur : ∀ (f : Nat) (s : List Char), s.length ≤ f →
    httpL <:+: s → httpsL <:+: replaceFuel httpL httpsL f s := by
  intro f
  induction f with
  | zero =>
    intro s h1 h
    have hs : s = [] := List.eq_nil_of_length_eq_zero (Nat.le_zero.mp h1)
    subst hs
    exact absurd h (by decide)
  | succ f ih =>
    intro s hs h
    cases s with
    | nil => exact absurd h (by decide)
    | cons c rest =>
      rw [replaceFuel_cons]
      by_cases hp : httpL <+: (c :: rest)
      · rw [if_pos hp]
        exact ⟨[], replaceFuel httpL httpsL f ((c :: rest).drop httpL.length),
          by simp⟩
      · rw [if_neg hp]
        rw [List.infix_cons_iff] at h
        rcases h with h | h
        · exact absurd h hp
        · have hrest : rest.length ≤ f := by
            simp only [List.length_cons] at hs; omega
          exact inCons c (ih rest hrest h)

/-- On an input without any occurrence of the pattern, the rewrite is the
identity. -/
theorem idNoOccur : ∀ (f : Nat) (s : List Char), s.length ≤ f →
    ¬ httpL <:+: s → replaceFuel httpL httpsL f s = s := by
  intro f
  induction f with
  | zero =>
    intro s h1 _
    have hs : s = [] := List.eq_nil_of_length_eq_zero (Nat.le_zero.mp h1)
    subst hs
    rw [replaceFuel_nil]
  | succ f ih =>
    intro s hs h
    cases s with
    | nil => rw [replaceFuel_nil]
    | cons c rest =>
      have hp : ¬ httpL <+: (c :: rest) := fun hp => h (pfxIn hp)
      rw [replaceFuel_cons, if_neg hp]
      have hrest : rest.length ≤ f := by
        simp only [List.length_cons] at hs; omega
      rw [ih rest hrest (fun hcon => h (inCons c hcon))]

/-- The rewrite distributes over an appended suffix that starts with a
character not occurring in the pattern (here `?`), so a query string
appended after the endpoint passes through untouched. -/
theorem replaceAppendQuery : ∀ (f : Nat) (x y' : List Char),
    (x ++ '?' :: y').length ≤ f →
    replaceFuel httpL httpsL f (x ++ '?' :: y') =
      replaceFuel httpL httpsL x.length x ++
        replaceFuel httpL httpsL ('?' :: y').length ('?' :: y') := by
  intro f
  induction f with
  | zero =>
    intro x y' h1
    rw [List.length_append] at h1
    simp at h1
  | succ f ih =>
    intro x y' hs
    cases x with
    | nil =>
      rw [List.nil_append, show replaceFuel httpL httpsL ([] : List Char).length [] = [] from rfl,
        List.nil_append]
      exact replaceFuel_congr httpsL httpL_ne_nil (f + 1) _ _
        (by simpa using hs) (le_of_eq rfl)
    | cons c x' =>
      rw [List.cons_append]
      by_cases hp : httpL <+: c :: (x' ++ '?' :: y')
      · by_cases h7 : httpL.length ≤ (c :: x').length
        · have hpx : httpL <+: (c :: x') := by
            have htake := List.prefix_iff_eq_take.mp hp
            rw [show c :: (x' ++ '?' :: y') = (c :: x') ++ '?' :: y' from rfl,
              List.take_append_of_le_length h7] at htake
            rw [htake]
            exact List.take_prefix _ _
          rw [replaceFuel_cons, if_pos hp]
          have hdrop : (c :: (x' ++ '?' :: y')).drop httpL.length =
              (c :: x').drop httpL.length ++ '?' :: y' := by
            rw [show c :: (x' ++ '?' :: y') = (c :: x') ++ '?' :: y' from rfl]
            exact List.drop_append_of_le_length h7
          rw [hdrop]
          have hlen : ((c :: x').drop httpL.length ++ '?' :: y').length ≤ f := by
            rw [List.length_append, List.length_drop, httpL_len]
            rw [httpL_len] at h7
            simp only [List.length_cons, List.length_append] at hs h7 ⊢
            omega
          rw [ih _ y' hlen]
          have hx : replaceFuel httpL httpsL (c :: x').length (c :: x') =
              httpsL ++ replaceFuel httpL httpsL ((c :: x').drop httpL.length).length
                ((c :: x').drop httpL.length) := by
            rw [show (c :: x').length = x'.length + 1 from rfl, replaceFuel_cons,
              if_pos hpx]
            congr 1
            exact replaceFuel_congr httpsL httpL_ne_nil x'.length _ _
              (by rw [List.length_drop, httpL_len]; simp only [List.length_cons]; omega)
              (le_of_eq rfl)
          rw [hx, List.append_assoc]
        · exfalso
          rcases pfxSplit (x := c :: x') (y := '?' :: y')
              (by simpa using hp) with h1 | ⟨q, hq, hqy⟩
          · exact h7 h1.length_le
          · cases q with
            | nil =>
              rw [List.append_nil] at hq
              exact h7 (le_of_eq (by rw [hq]))
            | cons q0 qt =>
              rw [List.cons_prefix_cons] at hqy
              have hmem : ('?' : Char) ∈ httpL := by
                rw [hq, hqy.1]
                exact List.mem_append.mpr (Or.inr (List.mem_cons_self _ _))
              exact absurd hmem (by decide)
      · have hpx : ¬ httpL <+: (c :: x') := fun hcon =>
          hp (hcon.trans ⟨'?' :: y', rfl⟩)
        rw [replaceFuel_cons, if_neg hp]
        have hlen : (x' ++ '?' :: y').length ≤ f := by
          simp only [List.cons_append, List.length_cons] at hs
          omega
        rw [ih x' y' hlen]
        rw [show (c :: x').length = x'.length + 1 from rfl, replaceFuel_cons,
          if_neg hpx, List.cons_append]

/-- `replaceHttp` leaves a pattern-free input unchanged. -/
theorem replaceHttp_eq_self {s : List Char} (h : ¬ httpL <:+: s) :
    replaceHttp s = s :=
  idNoOccur s.length s (le_of_eq rfl) h

/-- `replaceHttp`'s output never contains `http://`. -/
theorem replaceHttp_no_http (s : List Char) : ¬ httpL <:+: replaceHttp s :=
  noResidual s.length s (le_of_eq rfl)

/-- `replaceHttp` puts `https://` wherever the input had `http://`. -/
theorem replaceHttp_has_https {s : List Char} (h : httpL <:+: s) :
    httpsL <:+: replaceHttp s :=
  posOccur s.length s (le_of_eq rfl) h

/-- A `?query` suffix passes through `replaceHttp` untouched. -/
theorem replaceHttp_append_query (x y' : List Char) :
    replaceHttp (x ++ '?' :: y') = replaceHttp x ++ replaceHttp ('?' :: y') :=
  replaceAppendQuery (x ++ '?' :: y').length x y' (le_of_eq rfl)

/-- A leading `http://` becomes a leading `https://`. -/
theorem replaceHttp_head (rest : List Char) :
    replaceHttp (httpL ++ rest) = httpsL ++ replaceHttp rest := by
  have hdrop : (httpL ++ rest).drop 7 = rest := by
    rw [show (7 : Nat) = httpL.length from rfl]
    exact List.drop_left _ _
  rw [replaceHttp_pos_head ⟨rest, rfl⟩, hdrop]

/-! ### Cache and fetch-pipeline lemmas -/

theorem mapGet_mapSet_self (c : List (String × Option PointsResponse))
    (k : String) (v : Option PointsResponse) :
    mapGet (mapSet c k v) k = v := by
  induction c with
  | nil => simp [mapSet, mapGet]
  | cons kv rest ih =>
    obtain ⟨k', v'⟩ := kv
    by_cases h : k' = k
    · subst h; simp [mapSet, mapGet]
    · simp [mapSet, mapGet, h, ih]

theorem mapGet_mapSet_ne (c : List (String × Option PointsResponse))
    {k k' : String} (v : Option PointsResponse) (h : k ≠ k') :
    mapGet (mapSet c k v) k' = mapGet c k' := by
  induction c with
  | nil => simp [mapSet, mapGet, h]
  | cons kv rest ih =>
    obtain ⟨k₀, v₀⟩ := kv
    by_cases h0 : k₀ = k
    · subst h0; simp [mapSet, mapGet, h, ih]
    · simp [mapSet, mapGet, h0, ih]

/-- The state after `apiCall`: exactly one request appended to the log
(the rewritten URL with the two configured headers), cache untouched. -/
theorem apiCall_state (w : World) (config : Config) (endpoint : String)
    (st : St) :
    (apiCall w config endpoint st).2 =
      { st with log := st.log ++
          [{ url := stringsReplace endpoint "http://" "https://",
             accept := config.Accept, userAgent := config.UserAgent }] } := by
  simp only [apiCall]
  split
  · rfl
  · split <;> rfl

theorem apiCall_cache (w : World) (config : Config) (endpoint : String)
    (st : St) : (apiCall w config endpoint st).2.cache = st.cache := by
  rw [apiCall_state]

/-- A non-nil cache entry survives a call to Points unchanged. -/
theorem points_cache_mono (w : World) (config : Config) (lat lon : String)
    (st : St) {k : String} {q : PointsResponse}
    (h : mapGet st.cache k = some q) :
    mapGet (Points w config lat lon st).2.cache k = some q := by
  simp only [Points]
  split
  · exact h
  · rename_i hmiss
    split
    · rename_i e st' heq
      have : st'.cache = st.cache := by
        have h2 := apiCall_cache w config (pointsURL config lat lon) st
        rw [heq] at h2
        exact h2
      rw [this]
      exact h
    · rename_i res st' heq
      have hc : st'.cache = st.cache := by
        have h2 := apiCall_cache w config (pointsURL config lat lon) st
        rw [heq] at h2
        exact h2
      split
      · rw [hc]; exact h
      · have hne : pointsURL config lat lon ≠ k := by
          intro hk
          rw [hk, h] at hmiss
          exact Option.noConfusion hmiss
        rw [mapGet_mapSet_ne _ _ hne, hc]
        exact h

/-- Shape of a successful cache-missing Points call: one fetch, a decode,
and the decoded pointer inserted into the cache. -/
theorem points_success_shape (w : World) (config : Config) (lat lon : String)
    (st : St) {v : Option PointsResponse} {st₁ : St}
    (hmiss : mapGet st.cache (pointsURL config lat lon) = none)
    (h : Points w config lat lon st = (.ret v none, st₁)) :
    ∃ res st', apiCall w config (pointsURL config lat lon) st = (.ok res, st') ∧
      decodeBody decodePointsGo res = .ok v ∧
      st₁ = { st' with
        cache := mapSet st'.cache (pointsURL config lat lon) v } := by
  simp only [Points, hmiss] at h
  split at h
  · simp at h
  · rename_i res st' heq
    split at h
    · simp at h
    · rename_i points hdec
      obtain ⟨h1, h2⟩ := Prod.mk.injEq .. ▸ h
      obtain ⟨hv, -⟩ := GoRes.ret.injEq .. ▸ h1
      subst hv
      exact ⟨res, st', heq, hdec, h2.symm⟩

/-! ### C1 -/

/-- C1 as frozen is violated by the code: a 200 response whose body is
the JSON literal `null` decodes into a nil `*PointsResponse` with no
error, so the first call succeeds (no error) yet the nil entry makes the
`pointsCache[endpoint] != nil` check miss again: both calls succeed and
two outbound requests are issued instead of exactly one. -/
theorem points_null_body_defeats_cache :
    (Points wNull cfg0 "1" "2" st0).1 = .ret none none ∧
    (Points wNull cfg0 "1" "2" (Points wNull cfg0 "1" "2" st0).2).1 =
      .ret none none ∧
    (Points wNull cfg0 "1" "2" (Points wNull cfg0 "1" "2" st0).2).2.log.length
      = 2 := by
  exact ⟨rfl, rfl, rfl⟩

/-- C1 (amended): for every coordinate pair not yet cached, after a first
successful call that returns a non-nil PointsResponse, exactly one fetch
was issued, and a second call returns the same cached PointsResponse with
no further outbound request and no state change at all. -/
theorem points_second_call_cached :
    ∀ (w : World) (config : Config) (lat lon : String) (st : St)
      (p : PointsResponse) (st₁ : St),
      mapGet st.cache (pointsURL config lat lon) = none →
      Points w config lat lon st = (.ret (some p) none, st₁) →
      st₁.log = st.log ++
        [{ url := stringsReplace (pointsURL config lat lon) "http://" "https://",
           accept := config.Accept, userAgent := config.UserAgent }] ∧
      Points w config lat lon st₁ = (.ret (some p) none, st₁) := by
  intro w config lat lon st p st₁ hmiss h
  obtain ⟨res, st', hapi, hdec, hst⟩ := points_success_shape w config lat lon st hmiss h
  have hlog : st'.log = st.log ++
      [{ url := stringsReplace (pointsURL config lat lon) "http://" "https://",
         accept := config.Accept, userAgent := config.UserAgent }] := by
    have h2 := apiCall_state w config (pointsURL config lat lon) st
    rw [hapi] at h2
    dsimp only at h2
    rw [h2]
  constructor
  · rw [hst]
    exact hlog
  · have hhit : mapGet st₁.cache (pointsURL config lat lon) = some p := by
      rw [hst]
      exact mapGet_mapSet_self _ _ _
    simp only [Points, hhit]

/-- Witness for C1 at a concrete fresh state and mock transport. -/
theorem points_second_call_cached_witness :
    stP1.log = st0.log ++
      [{ url := stringsReplace (pointsURL cfg0 "1" "2") "http://" "https://",
         accept := cfg0.Accept, userAgent := cfg0.UserAgent }] ∧
    Points wPts cfg0 "1" "2" stP1 = (.ret (some pX) none, stP1) :=
  points_second_call_cached wPts cfg0 "1" "2" st0 pX stP1 rfl rfl

/-! ### C2 -/

theorem cache_eq_of_apiCall {w : World} {config : Config} {endpoint : String}
    {st : St} {r : Except String HttpResponse} {st₂ : St}
    (heq : apiCall w config endpoint st = (r, st₂)) : st₂.cache = st.cache := by
  have hc := apiCall_cache w config endpoint st
  rw [heq] at hc
  exact hc

theorem cache_mono_of_points {w : World} {config : Config} {lat lon : String}
    {st : St} {r : GoRes (Option PointsResponse)} {st₁ : St}
    (heq : Points w config lat lon st = (r, st₁)) {k : String}
    {q : PointsResponse} (h : mapGet st.cache k = some q) :
    mapGet st₁.cache k = some q := by
  have hp := points_cache_mono w config lat lon st h
  rw [heq] at hp
  exact hp

theorem office_cache_mono (w : World) (config : Config) (id : String)
    (st : St) {k : String} {q : PointsResponse}
    (h : mapGet st.cache k = some q) :
    mapGet (Office w config id st).2.cache k = some q := by
  simp only [Office]
  split
  next e st' heq => rw [cache_eq_of_apiCall heq]; exact h
  next res st' heq =>
    split
    · rw [cache_eq_of_apiCall heq]; exact h
    · rw [cache_eq_of_apiCall heq]; exact h

theorem stations_cache_mono (w : World) (config : Config) (lat lon : String)
    (st : St) {k : String} {q : PointsResponse}
    (h : mapGet st.cache k = some q) :
    mapGet (Stations w config lat lon st).2.cache k = some q := by
  simp only [Stations]
  split
  next x e st₁ heq => exact cache_mono_of_points heq h
  next st₁ heq => exact cache_mono_of_points heq h
  next point st₁ heq =>
    have h1 := cache_mono_of_points heq h
    split
    next e st₂ heq2 => rw [cache_eq_of_apiCall heq2]; exact h1
    next res st₂ heq2 =>
      split
      · rw [cache_eq_of_apiCall heq2]; exact h1
      · rw [cache_eq_of_apiCall heq2]; exact h1
  next m st₁ heq => exact cache_mono_of_points heq h

theorem forecast_cache_mono (w : World) (config : Config) (lat lon : String)
    (st : St) {k : String} {q : PointsResponse}
    (h : mapGet st.cache k = some q) :
    mapGet (Forecast w config lat lon st).2.cache k = some q := by
  simp only [Forecast]
  split
  next x e st₁ heq => exact cache_mono_of_points heq h
  next st₁ heq => exact cache_mono_of_points heq h
  next point st₁ heq =>
    have h1 := cache_mono_of_points heq h
    split
    next e st₂ heq2 => rw [cache_eq_of_apiCall heq2]; exact h1
    next res st₂ heq2 =>
      split
      · rw [cache_eq_of_apiCall heq2]; exact h1
      · rw [cache_eq_of_apiCall heq2]; exact h1
      · rw [cache_eq_of_apiCall heq2]; exact h1
  next m st₁ heq => exact cache_mono_of_points heq h

theorem gridpoint_cache_mono (w : World) (config : Config) (lat long : String)
    (st : St) {k : String} {q : PointsResponse}
    (h : mapGet st.cache k = some q) :
    mapGet (GridpointForecast w config lat long st).2.cache k = some q := by
  simp only [GridpointForecast]
  split
  next x e st₁ heq => exact cache_mono_of_points heq h
  next st₁ heq => exact cache_mono_of_points heq h
  next point st₁ heq =>
    have h1 := cache_mono_of_points heq h
    split
    next e st₂ heq2 => rw [cache_eq_of_apiCall heq2]; exact h1
    next res st₂ heq2 =>
      split
      · rw [cache_eq_of_apiCall heq2]; exact h1
      · rw [cache_eq_of_apiCall heq2]; exact h1
      · rw [cache_eq_of_apiCall heq2]; exact h1
  next m st₁ heq => exact cache_mono_of_points heq h

theorem hourly_cache_mono (w : World) (config : Config) (lat long : String)
    (st : St) {k : String} {q : PointsResponse}
    (h : mapGet st.cache k = some q) :
    mapGet (HourlyForecast w config lat long st).2.cache k = some q := by
  simp only [HourlyForecast]
  split
  next x e st₁ heq => exact cache_mono_of_points heq h
  next st₁ heq => exact cache_mono_of_points heq h
  next point st₁ heq =>
    have h1 := cache_mono_of_points heq h
    split
    next e st₂ heq2 => rw [cache_eq_of_apiCall heq2]; exact h1
    next res st₂ heq2 =>
      split
      · rw [cache_eq_of_apiCall heq2]; exact h1
      · rw [cache_eq_of_apiCall heq2]; exact h1
      · rw [cache_eq_of_apiCall heq2]; exact h1
  next m st₁ heq => exact cache_mono_of_points heq h

theorem observation_cache_mono (w : World) (config : Config)
    (stationID : String) (st : St) {k : String} {q : PointsResponse}
    (h : mapGet st.cache k = some q) :
    mapGet (LatestStationObservation w config stationID st).2.cache k
      = some q := by
  simp only [LatestStationObservation]
  split
  next e st' heq => rw [cache_eq_of_apiCall heq]; exact h
  next res st' heq =>
    split
    · rw [cache_eq_of_apiCall heq]; exact h
    · rw [cache_eq_of_apiCall heq]; exact h

theorem alerts_cache_mono (w : World) (config : Config) (lat long : String)
    (st : St) {k : String} {q : PointsResponse}
    (h : mapGet st.cache k = some q) :
    mapGet (Alerts w config lat long st).2.cache k = some q := by
  simp only [Alerts]
  split
  next e st' heq => rw [cache_eq_of_apiCall heq]; exact h
  next res st' heq =>
    split
    · rw [cache_eq_of_apiCall heq]; exact h
    · split
      · rw [cache_eq_of_apiCall heq]; exact h
      · split
        · rw [cache_eq_of_apiCall heq]; exact h
        · rw [cache_eq_of_apiCall heq]; exact h

/-- Errors never reach the cache write in Points. -/
theorem points_err_cache (w : World) (config : Config) (lat lon : String)
    (st : St) :
    ∀ v e st', Points w config lat lon st = (.ret v (some e), st') →
      st'.cache = st.cache := by
  intro v e st' h
  simp only [Points] at h
  split at h
  · simp at h
  · split at h
    next e₂ st₂ heq =>
      obtain ⟨-, h2⟩ := Prod.mk.injEq .. ▸ h
      rw [← h2]
      exact cache_eq_of_apiCall heq
    next res st₂ heq =>
      split at h
      · obtain ⟨-, h2⟩ := Prod.mk.injEq .. ▸ h
        rw [← h2]
        exact cache_eq_of_apiCall heq
      · simp at h

/-- C2 as frozen is violated by the code: a 200 body `null` decodes with
no error, so the first (successful) call stores a nil entry under the
endpoint key; a later call misses the `!= nil` check, fetches again and
overwrites that existing entry — the cache does replace an existing
entry. -/
theorem cache_nil_entry_replaced :
    (Points wFlip cfg0 "1" "2" st0).1 = .ret none none ∧
    (Points wFlip cfg0 "1" "2" st0).2.cache =
      [("https://api.weather.gov/points/1,2", none)] ∧
    (Points wFlip cfg0 "1" "2" (Points wFlip cfg0 "1" "2" st0).2).2.cache =
      [("https://api.weather.gov/points/1,2", some {})] := by
  exact ⟨rfl, rfl, rfl⟩

/-- C2 (amended): Points never caches a failed lookup — on a fetch or
decode error the error is returned and the cache is exactly as it was —
and no operation removes a cache entry or replaces an entry holding a
non-nil PointsResponse.  (An entry holding a nil pointer, created when a
200 body `null` decodes successfully, is treated as absent by the hit
check and can be overwritten, as the counterexample shows.) -/
theorem cache_no_failed_store_no_eviction :
    ∀ (w : World) (config : Config) (lat lon sid : String) (st : St),
      (∀ v e st', Points w config lat lon st = (.ret v (some e), st') →
        st'.cache = st.cache) ∧
      (∀ k q, mapGet st.cache k = some q →
        mapGet (Points w config lat lon st).2.cache k = some q ∧
        mapGet (Office w config sid st).2.cache k = some q ∧
        mapGet (Stations w config lat lon st).2.cache k = some q ∧
        mapGet (Forecast w config lat lon st).2.cache k = some q ∧
        mapGet (GridpointForecast w config lat lon st).2.cache k = some q ∧
        mapGet (HourlyForecast w config lat lon st).2.cache k = some q ∧
        mapGet (LatestStationObservation w config sid st).2.cache k = some q ∧
        mapGet (Alerts w config lat lon st).2.cache k = some q) := by
  intro w config lat lon sid st
  refine ⟨points_err_cache w config lat lon st, ?_⟩
  intro k q h
  exact ⟨points_cache_mono w config lat lon st h,
    office_cache_mono w config sid st h,
    stations_cache_mono w config lat lon st h,
    forecast_cache_mono w config lat lon st h,
    gridpoint_cache_mono w config lat lon st h,
    hourly_cache_mono w config lat lon st h,
    observation_cache_mono w config sid st h,
    alerts_cache_mono w config lat lon st h⟩

/-- Witness for C2: a failing fetch leaves the cache unchanged, and a
cached non-nil entry survives a further call. -/
theorem cache_no_failed_store_no_eviction_witness :
    (Points w0 cfg0 "1" "2" st0).2.cache = st0.cache ∧
    mapGet (Points wPts cfg0 "1" "2" stP1).2.cache
      "https://api.weather.gov/points/1,2" = some pX :=
  ⟨(cache_no_failed_store_no_eviction w0 cfg0 "1" "2" "KX" st0).1 none
      "dial tcp: connection refused" (Points w0 cfg0 "1" "2" st0).2 rfl,
    ((cache_no_failed_store_no_eviction wPts cfg0 "1" "2" "KX" stP1).2
      "https://api.weather.gov/points/1,2" pX rfl).1⟩

/-! ### C3 and C10 -/

/-- C3 as frozen is violated by the code: strings.Replace(..., -1)
rewrites every `http://` occurrence, not only the leading one.  On
`http://h?u=http://x` the issued URL differs from the leading-only
rewrite of the claim, and on `https://h?u=http://x` the issued URL is not
the endpoint as given. -/
theorem scheme_rewrite_not_only_leading :
    (apiCall w0 cfg0 "http://h?u=http://x" st0).2.log =
      [{ url := "https://h?u=https://x", accept := cfg0.Accept,
         userAgent := cfg0.UserAgent }] ∧
    ("https://h?u=https://x" : String) ≠
      leadingSchemeRewriteSpec "http://h?u=http://x" ∧
    (apiCall w0 cfg0 "https://h?u=http://x" st0).2.log =
      [{ url := "https://h?u=https://x", accept := cfg0.Accept,
         userAgent := cfg0.UserAgent }] ∧
    ("https://h?u=https://x" : String) ≠ "https://h?u=http://x" := by
  exact ⟨rfl, by decide, rfl, by decide⟩

/-- C3 (amended): the outbound GET goes to the endpoint with every
occurrence of `http://` rewritten to `https://`.  In particular, for an
endpoint beginning with `http://` the leading prefix becomes `https://`
(with the remainder rewritten the same way), and an endpoint beginning
with `https://` and containing no `http://` occurrence at all is
requested exactly as given. -/
theorem scheme_rewrite_amended :
    ∀ (w : World) (config : Config) (st : St) (endpoint : String),
      ((apiCall w config endpoint st).2.log = st.log ++
        [{ url := stringsReplace endpoint "http://" "https://",
           accept := config.Accept, userAgent := config.UserAgent }]) ∧
      (∀ rest : List Char, endpoint.data = httpL ++ rest →
        (stringsReplace endpoint "http://" "https://").data =
          httpsL ++ replaceHttp rest) ∧
      (¬ httpL <:+: endpoint.data →
        stringsReplace endpoint "http://" "https://" = endpoint) := by
  intro w config st endpoint
  refine ⟨by rw [apiCall_state], ?_, ?_⟩
  · intro rest hr
    rw [stringsReplace_data, hr, replaceHttp_head]
  · intro h
    show String.mk (replaceHttp endpoint.data) = endpoint
    rw [replaceHttp_eq_self h]

/-- Witness for C3 (amended) at concrete endpoints. -/
theorem scheme_rewrite_amended_witness :
    (stringsReplace "http://a" "http://" "https://").data =
      httpsL ++ replaceHttp "a".data ∧
    stringsReplace "https://a" "http://" "https://" = "https://a" :=
  ⟨(scheme_rewrite_amended w0 cfg0 st0 "http://a").2.1 "a".data (by decide),
   (scheme_rewrite_amended w0 cfg0 st0 "https://a").2.2 (by decide)⟩

/-- C10: apiCall's normalization replaces every occurrence of the
substring `http://` in the endpoint with `https://`, not only a leading
prefix: the issued request URL is the endpoint with the global rewrite
applied, an endpoint containing `http://` anywhere yields an `https://`
occurrence in the issued URL, and no `http://` occurrence survives
anywhere in the issued URL. -/
theorem apiCall_rewrites_every_occurrence :
    ∀ (w : World) (config : Config) (endpoint : String) (st : St),
      (apiCall w config endpoint st).2.log = st.log ++
        [{ url := stringsReplace endpoint "http://" "https://",
           accept := config.Accept, userAgent := config.UserAgent }] ∧
      (httpL <:+: endpoint.data →
        httpsL <:+: (stringsReplace endpoint "http://" "https://").data) ∧
      ¬ httpL <:+: (stringsReplace endpoint "http://" "https://").data := by
  intro w config endpoint st
  refine ⟨by rw [apiCall_state], ?_, ?_⟩
  · intro h
    rw [stringsReplace_data]
    exact replaceHttp_has_https h
  · rw [stringsReplace_data]
    exact replaceHttp_no_http _

/-- Witness for C10: an occurrence inside a query component is
rewritten. -/
theorem apiCall_rewrites_every_occurrence_witness :
    httpsL <:+: (stringsReplace "https://h?u=http://x" "http://" "https://").data :=
  (apiCall_rewrites_every_occurrence w0 cfg0 "https://h?u=http://x" st0).2.1
    (by decide)

/-! ### C4 -/

/-- C4: a non-200 response makes apiCall return no value, only the error
`"<code> <status>"` carrying the numeric status and the status text; a
404 yields an error that contains "404"; every non-200 class is treated
by the same equation, and exactly one request is issued with no retry. -/
theorem non200_is_error :
    ∀ (w : World) (config : Config) (endpoint : String) (st : St)
      (res : HttpResponse),
      w.transport st.log.length
          { url := stringsReplace endpoint "http://" "https://",
            accept := config.Accept, userAgent := config.UserAgent } =
        .ok res →
      res.statusCode ≠ 200 →
      apiCall w config endpoint st =
        (.error (toString res.statusCode ++ " " ++ res.status),
         { st with log := st.log ++
            [{ url := stringsReplace endpoint "http://" "https://",
               accept := config.Accept, userAgent := config.UserAgent }] }) ∧
      (res.statusCode = 404 →
        "404".data <:+: (toString res.statusCode ++ " " ++ res.status).data) := by
  intro w config endpoint st res htr hne
  constructor
  · simp only [apiCall, htr]
    rw [if_pos hne]
  · intro h404
    rw [h404]
    refine pfxIn ⟨(" " ++ res.status).data, ?_⟩
    rw [strDataAppend, strDataAppend, strDataAppend,
      show (toString (404 : Nat)) = "404" from rfl]
    simp

/-- Witness for C4 at a 404 mock transport. -/
theorem non200_is_error_witness :
    apiCall w404 cfg0 "https://sx/KX" st0 =
      (.error (toString resp404.statusCode ++ " " ++ resp404.status),
       { st0 with log := st0.log ++
          [{ url := stringsReplace "https://sx/KX" "http://" "https://",
             accept := cfg0.Accept, userAgent := cfg0.UserAgent }] }) ∧
    (resp404.statusCode = 404 →
      "404".data <:+: (toString resp404.statusCode ++ " " ++ resp404.status).data) :=
  non200_is_error w404 cfg0 "https://sx/KX" st0 resp404 rfl (by decide)

/-! ### C5, C6: the units query parameter -/

theorem strAppendEmpty (s : String) : s ++ "" = s := by
  cases s with
  | mk d =>
    show String.mk (d ++ []) = String.mk d
    rw [List.append_nil]

theorem state_of_apiCall {w : World} {config : Config} {endpoint : String}
    {st : St} {r : Except String HttpResponse} {st₂ : St}
    (heq : apiCall w config endpoint st = (r, st₂)) :
    st₂ = { st with log := st.log ++
      [{ url := stringsReplace endpoint "http://" "https://",
         accept := config.Accept, userAgent := config.UserAgent }] } := by
  have h2 := apiCall_state w config endpoint st
  rw [heq] at h2
  exact h2

/-- The request issued by Forecast after a successful point resolution. -/
theorem forecast_issue_log (w : World) (config : Config) (lat lon : String)
    (st : St) {p : PointsResponse} {st₁ : St}
    (hP : Points w config lat lon st = (.ret (some p) none, st₁)) :
    (Forecast w config lat lon st).2.log = st₁.log ++
      [{ url := stringsReplace
          (p.EndpointForecast ++
            (if config.Units ≠ "" then "?units=" ++ config.Units else ""))
          "http://" "https://",
         accept := config.Accept, userAgent := config.UserAgent }] := by
  simp only [Forecast, hP]
  split
  next e st₂ heq => dsimp only; rw [state_of_apiCall heq]
  next res st₂ heq =>
    split
    · dsimp only; rw [state_of_apiCall heq]
    · dsimp only; rw [state_of_apiCall heq]
    · dsimp only; rw [state_of_apiCall heq]

/-- The request issued by HourlyForecast after a successful point
resolution. -/
theorem hourly_issue_log (w : World) (config : Config) (lat long : String)
    (st : St) {p : PointsResponse} {st₁ : St}
    (hP : Points w config lat long st = (.ret (some p) none, st₁)) :
    (HourlyForecast w config lat long st).2.log = st₁.log ++
      [{ url := stringsReplace
          (p.EndpointForecastHourly ++
            (if config.Units ≠ "" then "?units=" ++ config.Units else ""))
          "http://" "https://",
         accept := config.Accept, userAgent := config.UserAgent }] := by
  simp only [HourlyForecast, hP]
  split
  next e st₂ heq => dsimp only; rw [state_of_apiCall heq]
  next res st₂ heq =>
    split
    · dsimp only; rw [state_of_apiCall heq]
    · dsimp only; rw [state_of_apiCall heq]
    · dsimp only; rw [state_of_apiCall heq]

/-- The request issued by GridpointForecast after a successful point
resolution. -/
theorem gridpoint_issue_log (w : World) (config : Config) (lat long : String)
    (st : St) {p : PointsResponse} {st₁ : St}
    (hP : Points w config lat long st = (.ret (some p) none, st₁)) :
    (GridpointForecast w config lat long st).2.log = st₁.log ++
      [{ url := stringsReplace
          (p.EndpointForecastGridData ++
            (if config.Units ≠ "" then "?units=" ++ config.Units else ""))
          "http://" "https://",
         accept := config.Accept, userAgent := config.UserAgent }] := by
  simp only [GridpointForecast, hP]
  split
  next e st₂ heq => dsimp only; rw [state_of_apiCall heq]
  next res st₂ heq =>
    split
    · dsimp only; rw [state_of_apiCall heq]
    · dsimp only; rw [state_of_apiCall heq]
    · dsimp only; rw [state_of_apiCall heq]

/-- The request issued by Stations after a successful point resolution:
the bare observation-stations endpoint, no units query. -/
theorem stations_issue_log (w : World) (config : Config) (lat lon : String)
    (st : St) {p : PointsResponse} {st₁ : St}
    (hP : Points w config lat lon st = (.ret (some p) none, st₁)) :
    (Stations w config lat lon st).2.log = st₁.log ++
      [{ url := stringsReplace p.EndpointObservationStations "http://" "https://",
         accept := config.Accept, userAgent := config.UserAgent }] := by
  simp only [Stations, hP]
  split
  next e st₂ heq => dsimp only; rw [state_of_apiCall heq]
  next res st₂ heq =>
    split
    · dsimp only; rw [state_of_apiCall heq]
    · dsimp only; rw [state_of_apiCall heq]

/-- C5 as frozen is violated by the code: with units configured, Stations
requests the bare observation-stations endpoint with no `?units=`
appended (unlike the three forecast-shaped operations). -/
theorem stations_omits_units :
    cfgUS.Units = "us" ∧
    (Stations wPts cfgUS "1" "2" st0).2.log =
      [reqPts, { url := "https://fx/s", accept := cfgUS.Accept,
                 userAgent := cfgUS.UserAgent }] ∧
    ("https://fx/s" : String) ≠
      pX.EndpointObservationStations ++ "?units=" ++ cfgUS.Units := by
  exact ⟨rfl, rfl, by decide⟩

/-- C5 (amended): with a unit-system configured, forecast,
hourly-forecast and raw-gridpoint-forecast request the operation-specific
endpoint from the resolved PointsResponse with `?units=<value>` appended;
the observation-station-list operation requests its endpoint with no
units parameter. -/
theorem units_query_ops :
    ∀ (w : World) (config : Config) (lat lon : String) (st : St)
      (p : PointsResponse) (st₁ : St),
      config.Units ≠ "" →
      Points w config lat lon st = (.ret (some p) none, st₁) →
      (Forecast w config lat lon st).2.log = st₁.log ++
        [{ url := stringsReplace (p.EndpointForecast ++ ("?units=" ++ config.Units))
            "http://" "https://",
           accept := config.Accept, userAgent := config.UserAgent }] ∧
      (HourlyForecast w config lat lon st).2.log = st₁.log ++
        [{ url := stringsReplace (p.EndpointForecastHourly ++ ("?units=" ++ config.Units))
            "http://" "https://",
           accept := config.Accept, userAgent := config.UserAgent }] ∧
      (GridpointForecast w config lat lon st).2.log = st₁.log ++
        [{ url := stringsReplace (p.EndpointForecastGridData ++ ("?units=" ++ config.Units))
            "http://" "https://",
           accept := config.Accept, userAgent := config.UserAgent }] ∧
      (Stations w config lat lon st).2.log = st₁.log ++
        [{ url := stringsReplace p.EndpointObservationStations "http://" "https://",
           accept := config.Accept, userAgent := config.UserAgent }] := by
  intro w config lat lon st p st₁ hu hP
  have hif : (if config.Units ≠ "" then "?units=" ++ config.Units else "")
      = "?units=" ++ config.Units := if_pos hu
  refine ⟨?_, ?_, ?_, stations_issue_log w config lat lon st hP⟩
  · have h := forecast_issue_log w config lat lon st hP
    rw [hif] at h
    exact h
  · have h := hourly_issue_log w config lat lon st hP
    rw [hif] at h
    exact h
  · have h := gridpoint_issue_log w config lat lon st hP
    rw [hif] at h
    exact h

/-- Witness for C5 (amended), stations part, at a concrete scenario. -/
theorem units_query_ops_witness :
    (Stations wAll cfgUS "1" "2" st0).2.log = stP1.log ++
      [{ url := stringsReplace pX.EndpointObservationStations "http://" "https://",
         accept := cfgUS.Accept, userAgent := cfgUS.UserAgent }] :=
  (units_query_ops wAll cfgUS "1" "2" st0 pX stP1 (by decide) rfl).2.2.2

/-- The `?units=us` query survives the scheme rewrite as a suffix of the
issued URL. -/
theorem units_query_sfx (E : String) :
    "?units=us".data <:+
      (stringsReplace (E ++ ("?units=" ++ "us")) "http://" "https://").data := by
  refine ⟨replaceHttp E.data, ?_⟩
  rw [stringsReplace_data, strDataAppend]
  rw [show ("?units=" ++ "us").data = '?' :: "units=us".data from rfl]
  rw [replaceHttp_append_query]
  rfl

/-- C6: with unit-system "us", Forecast, HourlyForecast and
GridpointForecast issue their endpoint with `?units=us` appended (and the
issued URL ends in `?units=us`); with the unit-system unset the issued
URL is the bare endpoint — no units parameter at all, not an
empty-valued one. -/
theorem units_us_and_unset :
    ∀ (w : World) (config : Config) (lat lon : String) (st : St)
      (p : PointsResponse) (st₁ : St),
      Points w config lat lon st = (.ret (some p) none, st₁) →
      (config.Units = "us" →
        ((Forecast w config lat lon st).2.log = st₁.log ++
          [{ url := stringsReplace (p.EndpointForecast ++ ("?units=" ++ "us"))
              "http://" "https://",
             accept := config.Accept, userAgent := config.UserAgent }] ∧
         "?units=us".data <:+
          (stringsReplace (p.EndpointForecast ++ ("?units=" ++ "us"))
            "http://" "https://").data) ∧
        ((HourlyForecast w config lat lon st).2.log = st₁.log ++
          [{ url := stringsReplace (p.EndpointForecastHourly ++ ("?units=" ++ "us"))
              "http://" "https://",
             accept := config.Accept, userAgent := config.UserAgent }] ∧
         "?units=us".data <:+
          (stringsReplace (p.EndpointForecastHourly ++ ("?units=" ++ "us"))
            "http://" "https://").data) ∧
        ((GridpointForecast w config lat lon st).2.log = st₁.log ++
          [{ url := stringsReplace (p.EndpointForecastGridData ++ ("?units=" ++ "us"))
              "http://" "https://",
             accept := config.Accept, userAgent := config.UserAgent }] ∧
         "?units=us".data <:+
          (stringsReplace (p.EndpointForecastGridData ++ ("?units=" ++ "us"))
            "http://" "https://").data)) ∧
      (config.Units = "" →
        (Forecast w config lat lon st).2.log = st₁.log ++
          [{ url := stringsReplace p.EndpointForecast "http://" "https://",
             accept := config.Accept, userAgent := config.UserAgent }] ∧
        (HourlyForecast w config lat lon st).2.log = st₁.log ++
          [{ url := stringsReplace p.EndpointForecastHourly "http://" "https://",
             accept := config.Accept, userAgent := config.UserAgent }] ∧
        (GridpointForecast w config lat lon st).2.log = st₁.log ++
          [{ url := stringsReplace p.EndpointForecastGridData "http://" "https://",
             accept := config.Accept, userAgent := config.UserAgent }]) := by
  intro w config lat lon st p st₁ hP
  constructor
  · intro hus
    have hu : config.Units ≠ "" := by rw [hus]; decide
    obtain ⟨h1, h2, h3, -⟩ := units_query_ops w config lat lon st p st₁ hu hP
    rw [hus] at h1 h2 h3
    exact ⟨⟨h1, units_query_sfx _⟩, ⟨h2, units_query_sfx _⟩,
      ⟨h3, units_query_sfx _⟩⟩
  · intro hempty
    have hif : (if config.Units ≠ "" then "?units=" ++ config.Units else "")
        = "" := by rw [hempty]; decide
    have h1 := forecast_issue_log w config lat lon st hP
    have h2 := hourly_issue_log w config lat lon st hP
    have h3 := gridpoint_issue_log w config lat lon st hP
    rw [hif, strAppendEmpty] at h1 h2 h3
    exact ⟨h1, h2, h3⟩

/-- Witness for C6 at a concrete scenario with units "us". -/
theorem units_us_and_unset_witness :
    (Forecast wAll cfgUS "1" "2" st0).2.log = stP1.log ++
      [{ url := stringsReplace (pX.EndpointForecast ++ ("?units=" ++ "us"))
          "http://" "https://",
         accept := cfgUS.Accept, userAgent := cfgUS.UserAgent }] ∧
    "?units=us".data <:+
      (stringsReplace (pX.EndpointForecast ++ ("?units=" ++ "us"))
        "http://" "https://").data :=
  ((units_us_and_unset wAll cfgUS "1" "2" st0 pX stP1 rfl).1 rfl).1

/-! ### C7 -/

/-- C7: every successful Forecast, HourlyForecast and GridpointForecast
result carries a non-nil Point back-reference equal to the PointsResponse
returned by the point resolution that derived its endpoint; a successful
Stations result is exactly the decoded body, with no back-reference
attached (StationsResponse has no Point field at all). -/
theorem point_backreference :
    ∀ (w : World) (config : Config) (lat lon : String) (st : St),
      (∀ f st', Forecast w config lat lon st = (.ret (some f) none, st') →
        ∃ p st₁, Points w config lat lon st = (.ret (some p) none, st₁) ∧
          f.Point = some p) ∧
      (∀ f st', HourlyForecast w config lat lon st = (.ret (some f) none, st') →
        ∃ p st₁, Points w config lat lon st = (.ret (some p) none, st₁) ∧
          f.Point = some p) ∧
      (∀ f st', GridpointForecast w config lat lon st = (.ret (some f) none, st') →
        ∃ p st₁, Points w config lat lon st = (.ret (some p) none, st₁) ∧
          f.Point = some p) ∧
      (∀ s st', Stations w config lat lon st = (.ret (some s) none, st') →
        ∃ res, decodeBody w.decodeStations res = .ok (some s)) := by
  intro w config lat lon st
  refine ⟨?_, ?_, ?_, ?_⟩
  · intro f st' h
    simp only [Forecast] at h
    split at h
    · simp at h
    · simp at h
    · rename_i point st₁ heq
      split at h
      · simp at h
      · split at h
        · simp at h
        · simp at h
        · rename_i fc hdec
          simp only [Prod.mk.injEq, GoRes.ret.injEq, Option.some.injEq] at h
          obtain ⟨⟨hf, -⟩, -⟩ := h
          exact ⟨point, st₁, heq, by rw [← hf]⟩
    · simp at h
  · intro f st' h
    simp only [HourlyForecast] at h
    split at h
    · simp at h
    · simp at h
    · rename_i point st₁ heq
      split at h
      · simp at h
      · split at h
        · simp at h
        · simp at h
        · rename_i fc hdec
          simp only [Prod.mk.injEq, GoRes.ret.injEq, Option.some.injEq] at h
          obtain ⟨⟨hf, -⟩, -⟩ := h
          exact ⟨point, st₁, heq, by rw [← hf]⟩
    · simp at h
  · intro f st' h
    simp only [GridpointForecast] at h
    split at h
    · simp at h
    · simp at h
    · rename_i point st₁ heq
      split at h
      · simp at h
      · split at h
        · simp at h
        · simp at h
        · rename_i fc hdec
          simp only [Prod.mk.injEq, GoRes.ret.injEq, Option.some.injEq] at h
          obtain ⟨⟨hf, -⟩, -⟩ := h
          exact ⟨point, st₁, heq, by rw [← hf]⟩
    · simp at h
  · intro s st' h
    simp only [Stations] at h
    split at h
    · simp at h
    · simp at h
    · rename_i point st₁ heq
      split at h
      · simp at h
      · rename_i res st₂ heq2
        split at h
        · simp at h
        · rename_i stns hdec
          simp only [Prod.mk.injEq, GoRes.ret.injEq] at h
          obtain ⟨⟨hs, -⟩, -⟩ := h
          exact ⟨res, by rw [hdec, hs]⟩
    · simp at h

/-- Witness for C7 at a concrete all-success scenario. -/
theorem point_backreference_witness :
    ∃ p st₁, Points wAll cfg0 "1" "2" st0 = (.ret (some p) none, st₁) ∧
      ({ Point := some pX } : ForecastResponse).Point = some p :=
  (point_backreference wAll cfg0 "1" "2" st0).1 { Point := some pX }
    (Forecast wAll cfg0 "1" "2" st0).2 rfl

/-! ### C8 -/

/-- C8: Alerts reads the whole body then decodes the `@graph` wrapper:
the envelope with one alert yields exactly that record ("a1",
"Flood Warning") and no error; the envelope `{}` (missing `@graph` but
valid) yields the empty collection and no error; and every failing call
returns its error alongside the empty collection. -/
theorem alerts_two_step_decode :
    (Alerts wAlerts1 cfg0 "1" "2" st0).1 =
      .ret [{ ID := "a1", Event := "Flood Warning" }] none ∧
    (Alerts wAlerts2 cfg0 "1" "2" st0).1 = .ret [] none ∧
    (∀ (w : World) (config : Config) (lat long : String) (st : St) v e,
      (Alerts w config lat long st).1 = .ret v (some e) → v = []) := by
  refine ⟨rfl, rfl, ?_⟩
  intro w config lat long st v e h
  simp only [Alerts] at h
  split at h
  · dsimp only at h
    rw [GoRes.ret.injEq] at h
    exact h.1.symm
  · split at h
    · dsimp only at h
      rw [GoRes.ret.injEq] at h
      exact h.1.symm
    · split at h
      · dsimp only at h
        rw [GoRes.ret.injEq] at h
        exact h.1.symm
      · split at h
        · dsimp only at h
          rw [GoRes.ret.injEq] at h
          exact h.1.symm
        · dsimp only at h
          rw [GoRes.ret.injEq] at h
          exact Option.noConfusion h.2

/-- Witness for C8's failure clause at a concrete failing transport. -/
theorem alerts_two_step_decode_witness : ([] : List Alert) = [] :=
  alerts_two_step_decode.2.2 w0 cfg0 "1" "2" st0 []
    "dial tcp: connection refused" rfl

/-! ### C9 -/

theorem points_err_source (w : World) (config : Config) (lat lon : String)
    (st : St) : ∀ v e st',
    Points w config lat lon st = (.ret v (some e), st') →
      (apiCall w config (pointsURL config lat lon) st).1 = .error e ∨
      ∃ res st₂,
        apiCall w config (pointsURL config lat lon) st = (.ok res, st₂) ∧
        decodeBody decodePointsGo res = .error e := by
  intro v e st' h
  simp only [Points] at h
  split at h
  · simp at h
  · split at h
    next e₂ st₂ heq =>
      simp only [Prod.mk.injEq, GoRes.ret.injEq, Option.some.injEq] at h
      obtain ⟨⟨-, he⟩, -⟩ := h
      left
      rw [heq]
      dsimp only
      rw [he]
    next res st₂ heq =>
      split at h
      next e₂ hdec =>
        simp only [Prod.mk.injEq, GoRes.ret.injEq, Option.some.injEq] at h
        obtain ⟨⟨-, he⟩, -⟩ := h
        right
        exact ⟨res, st₂, heq, by rw [hdec, he]⟩
      next pts hdec => simp at h

theorem office_err_source (w : World) (config : Config) (id : String)
    (st : St) : ∀ v e st',
    Office w config id st = (.ret v (some e), st') →
      (apiCall w config (config.BaseURL ++ "/offices/" ++ id) st).1 = .error e ∨
      ∃ res st₂,
        apiCall w config (config.BaseURL ++ "/offices/" ++ id) st = (.ok res, st₂) ∧
        decodeBody w.decodeOffice res = .error e := by
  intro v e st' h
  simp only [Office] at h
  split at h
  next e₂ st₂ heq =>
    simp only [Prod.mk.injEq, GoRes.ret.injEq, Option.some.injEq] at h
    obtain ⟨⟨-, he⟩, -⟩ := h
    left
    rw [heq]
    dsimp only
    rw [he]
  next res st₂ heq =>
    split at h
    next e₂ hdec =>
      simp only [Prod.mk.injEq, GoRes.ret.injEq, Option.some.injEq] at h
      obtain ⟨⟨-, he⟩, -⟩ := h
      right
      exact ⟨res, st₂, heq, by rw [hdec, he]⟩
    next o hdec => simp at h

theorem stations_err_source (w : World) (config : Config) (lat lon : String)
    (st : St) : ∀ v e st',
    Stations w config lat lon st = (.ret v (some e), st') →
      (∃ v₀ st₁, Points w config lat lon st = (.ret v₀ (some e), st₁)) ∨
      ∃ p st₁, Points w config lat lon st = (.ret (some p) none, st₁) ∧
        ((apiCall w config p.EndpointObservationStations st₁).1 = .error e ∨
         ∃ res st₂,
           apiCall w config p.EndpointObservationStations st₁ = (.ok res, st₂) ∧
           decodeBody w.decodeStations res = .error e) := by
  intro v e st' h
  simp only [Stations] at h
  split at h
  next v₀ e₂ st₁ heq =>
    simp only [Prod.mk.injEq, GoRes.ret.injEq, Option.some.injEq] at h
    obtain ⟨⟨-, he⟩, -⟩ := h
    left
    rw [he] at heq
    exact ⟨v₀, st₁, heq⟩
  next st₁ heq => simp at h
  next point st₁ heq =>
    right
    refine ⟨point, st₁, heq, ?_⟩
    split at h
    next e₂ st₂ heq2 =>
      simp only [Prod.mk.injEq, GoRes.ret.injEq, Option.some.injEq] at h
      obtain ⟨⟨-, he⟩, -⟩ := h
      left
      rw [heq2]
      dsimp only
      rw [he]
    next res st₂ heq2 =>
      split at h
      next e₂ hdec =>
        simp only [Prod.mk.injEq, GoRes.ret.injEq, Option.some.injEq] at h
        obtain ⟨⟨-, he⟩, -⟩ := h
        right
        exact ⟨res, st₂, heq2, by rw [hdec, he]⟩
      next stns hdec => simp at h
  next m st₁ heq => simp at h

theorem forecast_err_source (w : World) (config : Config) (lat lon : String)
    (st : St) : ∀ v e st',
    Forecast w config lat lon st = (.ret v (some e), st') →
      (∃ v₀ st₁, Points w config lat lon st = (.ret v₀ (some e), st₁)) ∨
      ∃ p st₁, Points w config lat lon st = (.ret (some p) none, st₁) ∧
        ((apiCall w config (p.EndpointForecast ++
            (if config.Units ≠ "" then "?units=" ++ config.Units else "")) st₁).1
          = .error e ∨
         ∃ res st₂,
           apiCall w config (p.EndpointForecast ++
             (if config.Units ≠ "" then "?units=" ++ config.Units else "")) st₁
             = (.ok res, st₂) ∧
           decodeBody w.decodeForecast res = .error e) := by
  intro v e st' h
  simp only [Forecast] at h
  split at h
  next v₀ e₂ st₁ heq =>
    simp only [Prod.mk.injEq, GoRes.ret.injEq, Option.some.injEq] at h
    obtain ⟨⟨-, he⟩, -⟩ := h
    left
    rw [he] at heq
    exact ⟨v₀, st₁, heq⟩
  next st₁ heq => simp at h
  next point st₁ heq =>
    right
    refine ⟨point, st₁, heq, ?_⟩
    split at h
    next e₂ st₂ heq2 =>
      simp only [Prod.mk.injEq, GoRes.ret.injEq, Option.some.injEq] at h
      obtain ⟨⟨-, he⟩, -⟩ := h
      left
      rw [heq2]
      dsimp only
      rw [he]
    next res st₂ heq2 =>
      split at h
      next e₂ hdec =>
        simp only [Prod.mk.injEq, GoRes.ret.injEq, Option.some.injEq] at h
        obtain ⟨⟨-, he⟩, -⟩ := h
        right
        exact ⟨res, st₂, heq2, by rw [hdec, he]⟩
      next hdec => simp at h
      next fc hdec => simp at h
  next m st₁ heq => simp at h

theorem gridpoint_err_source (w : World) (config : Config) (lat long : String)
    (st : St) : ∀ v e st',
    GridpointForecast w config lat long st = (.ret v (some e), st') →
      (∃ v₀ st₁, Points w config lat long st = (.ret v₀ (some e), st₁)) ∨
      ∃ p st₁, Points w config lat long st = (.ret (some p) none, st₁) ∧
        ((apiCall w config (p.EndpointForecastGridData ++
            (if config.Units ≠ "" then "?units=" ++ config.Units else "")) st₁).1
          = .error e ∨
         ∃ res st₂,
           apiCall w config (p.EndpointForecastGridData ++
             (if config.Units ≠ "" then "?units=" ++ config.Units else "")) st₁
             = (.ok res, st₂) ∧
           decodeBody w.decodeGridpoint res = .error e) := by
  intro v e st' h
  simp only [GridpointForecast] at h
  split at h
  next v₀ e₂ st₁ heq =>
    simp only [Prod.mk.injEq, GoRes.ret.injEq, Option.some.injEq] at h
    obtain ⟨⟨-, he⟩, -⟩ := h
    left
    rw [he] at heq
    exact ⟨v₀, st₁, heq⟩
  next st₁ heq => simp at h
  next point st₁ heq =>
    right
    refine ⟨point, st₁, heq, ?_⟩
    split at h
    next e₂ st₂ heq2 =>
      simp only [Prod.mk.injEq, GoRes.ret.injEq, Option.some.injEq] at h
      obtain ⟨⟨-, he⟩, -⟩ := h
      left
      rw [heq2]
      dsimp only
      rw [he]
    next res st₂ heq2 =>
      split at h
      next e₂ hdec =>
        simp only [Prod.mk.injEq, GoRes.ret.injEq, Option.some.injEq] at h
        obtain ⟨⟨-, he⟩, -⟩ := h
        right
        exact ⟨res, st₂, heq2, by rw [hdec, he]⟩
      next hdec => simp at h
      next fc hdec => simp at h
  next m st₁ heq => simp at h

theorem hourly_err_source (w : World) (config : Config) (lat long : String)
    (st : St) : ∀ v e st',
    HourlyForecast w config lat long st = (.ret v (some e), st') →
      (∃ v₀ st₁, Points w config lat long st = (.ret v₀ (some e), st₁)) ∨
      ∃ p st₁, Points w config lat long st = (.ret (some p) none, st₁) ∧
        ((apiCall w config (p.EndpointForecastHourly ++
            (if config.Units ≠ "" then "?units=" ++ config.Units else "")) st₁).1
          = .error e ∨
         ∃ res st₂,
           apiCall w config (p.EndpointForecastHourly ++
             (if config.Units ≠ "" then "?units=" ++ config.Units else "")) st₁
             = (.ok res, st₂) ∧
           decodeBody w.decodeHourly res = .error e) := by
  intro v e st' h
  simp only [HourlyForecast] at h
  split at h
  next v₀ e₂ st₁ heq =>
    simp only [Prod.mk.injEq, GoRes.ret.injEq, Option.some.injEq] at h
    obtain ⟨⟨-, he⟩, -⟩ := h
    left
    rw [he] at heq
    exact ⟨v₀, st₁, heq⟩
  next st₁ heq => simp at h
  next point st₁ heq =>
    right
    refine ⟨point, st₁, heq, ?_⟩
    split at h
    next e₂ st₂ heq2 =>
      simp only [Prod.mk.injEq, GoRes.ret.injEq, Option.some.injEq] at h
      obtain ⟨⟨-, he⟩, -⟩ := h
      left
      rw [heq2]
      dsimp only
      rw [he]
    next res st₂ heq2 =>
      split at h
      next e₂ hdec =>
        simp only [Prod.mk.injEq, GoRes.ret.injEq, Option.some.injEq] at h
        obtain ⟨⟨-, he⟩, -⟩ := h
        right
        exact ⟨res, st₂, heq2, by rw [hdec, he]⟩
      next hdec => simp at h
      next fc hdec => simp at h
  next m st₁ heq => simp at h

theorem alerts_err_source (w : World) (config : Config) (lat long : String)
    (st : St) : ∀ v e st',
    Alerts w config lat long st = (.ret v (some e), st') →
      (apiCall w config
        (config.BaseURL ++ "/alerts/active?point=" ++ lat ++ "," ++ long) st).1
        = .error e ∨
      ∃ res st₂,
        apiCall w config
          (config.BaseURL ++ "/alerts/active?point=" ++ lat ++ "," ++ long) st
          = (.ok res, st₂) ∧
        (res.body = .error e ∨ res.body = .ok (.error e) ∨
         ∃ j, res.body = .ok (.ok j) ∧ unmarshalAlertsResponse j = .error e) := by
  intro v e st' h
  simp only [Alerts] at h
  split at h
  next e₂ st₂ heq =>
    simp only [Prod.mk.injEq, GoRes.ret.injEq, Option.some.injEq] at h
    obtain ⟨⟨-, he⟩, -⟩ := h
    left
    rw [heq]
    dsimp only
    rw [he]
  next res st₂ heq =>
    right
    split at h
    next e₂ hbody =>
      simp only [Prod.mk.injEq, GoRes.ret.injEq, Option.some.injEq] at h
      obtain ⟨⟨-, he⟩, -⟩ := h
      exact ⟨res, st₂, heq, Or.inl (by rw [hbody, he])⟩
    next parsed hbody =>
      split at h
      next e₂ =>
        simp only [Prod.mk.injEq, GoRes.ret.injEq, Option.some.injEq] at h
        obtain ⟨⟨-, he⟩, -⟩ := h
        exact ⟨res, st₂, heq, Or.inr (Or.inl (by rw [hbody, he]))⟩
      next j =>
        split at h
        next e₂ hdec =>
          simp only [Prod.mk.injEq, GoRes.ret.injEq, Option.some.injEq] at h
          obtain ⟨⟨-, he⟩, -⟩ := h
          exact ⟨res, st₂, heq,
            Or.inr (Or.inr ⟨j, hbody, by rw [hdec, he]⟩)⟩
        next alerts hdec => simp at h

theorem observation_err_source (w : World) (config : Config)
    (stationID : String) (st : St) : ∀ v e st',
    LatestStationObservation w config stationID st = (.ret v (some e), st') →
      (∃ e₀,
        (apiCall w config (stationID ++ "/observations/latest") st).1 = .error e₀ ∧
        e = "failed to get latest observations: " ++ e₀) ∨
      ∃ res st₂,
        apiCall w config (stationID ++ "/observations/latest") st = (.ok res, st₂) ∧
        decodeBody w.decodeObservation res = .error e := by
  intro v e st' h
  simp only [LatestStationObservation] at h
  split at h
  next e₂ st₂ heq =>
    simp only [Prod.mk.injEq, GoRes.ret.injEq, Option.some.injEq] at h
    obtain ⟨⟨-, he⟩, -⟩ := h
    left
    exact ⟨e₂, by rw [heq], he.symm⟩
  next res st₂ heq =>
    split at h
    next e₂ hdec =>
      simp only [Prod.mk.injEq, GoRes.ret.injEq, Option.some.injEq] at h
      obtain ⟨⟨-, he⟩, -⟩ := h
      right
      exact ⟨res, st₂, heq, by rw [hdec, he]⟩
    next o hdec => simp at h

/-- C9 as frozen is violated by the code: LatestStationObservation does
not return the fetch-layer error unchanged — it wraps it with
fmt.Errorf("failed to get latest observations: %v", err). -/
theorem lso_wraps_fetch_error :
    (LatestStationObservation w404 cfg0 "https://sx/KX" st0).1 =
      .ret {} (some "failed to get latest observations: 404 404 Not Found") ∧
    (apiCall w404 cfg0 "https://sx/KX/observations/latest" st0).1 =
      .error "404 404 Not Found" ∧
    ("failed to get latest observations: 404 404 Not Found" : String) ≠
      "404 404 Not Found" := by
  exact ⟨rfl, rfl, by decide⟩

/-- C9 (amended): every operation returns the error produced by its fetch
or decode stage verbatim — each conjunct locates the returned error
unchanged in the stage that produced it — except LatestStationObservation,
which wraps a fetch-stage error with the prefix "failed to get latest
observations: " (its decode errors are returned unchanged). -/
theorem error_propagation_amended :
    ∀ (w : World) (config : Config) (lat lon sid : String) (st : St),
      (∀ v e st', Points w config lat lon st = (.ret v (some e), st') →
        (apiCall w config (pointsURL config lat lon) st).1 = .error e ∨
        ∃ res st₂,
          apiCall w config (pointsURL config lat lon) st = (.ok res, st₂) ∧
          decodeBody decodePointsGo res = .error e) ∧
      (∀ v e st', Office w config sid st = (.ret v (some e), st') →
        (apiCall w config (config.BaseURL ++ "/offices/" ++ sid) st).1 = .error e ∨
        ∃ res st₂,
          apiCall w config (config.BaseURL ++ "/offices/" ++ sid) st = (.ok res, st₂) ∧
          decodeBody w.decodeOffice res = .error e) ∧
      (∀ v e st', Stations w config lat lon st = (.ret v (some e), st') →
        (∃ v₀ st₁, Points w config lat lon st = (.ret v₀ (some e), st₁)) ∨
        ∃ p st₁, Points w config lat lon st = (.ret (some p) none, st₁) ∧
          ((apiCall w config p.EndpointObservationStations st₁).1 = .error e ∨
           ∃ res st₂,
             apiCall w config p.EndpointObservationStations st₁ = (.ok res, st₂) ∧
             decodeBody w.decodeStations res = .error e)) ∧
      (∀ v e st', Forecast w config lat lon st = (.ret v (some e), st') →
        (∃ v₀ st₁, Points w config lat lon st = (.ret v₀ (some e), st₁)) ∨
        ∃ p st₁, Points w config lat lon st = (.ret (some p) none, st₁) ∧
          ((apiCall w config (p.EndpointForecast ++
              (if config.Units ≠ "" then "?units=" ++ config.Units else "")) st₁).1
            = .error e ∨
           ∃ res st₂,
             apiCall w config (p.EndpointForecast ++
               (if config.Units ≠ "" then "?units=" ++ config.Units else "")) st₁
               = (.ok res, st₂) ∧
             decodeBody w.decodeForecast res = .error e)) ∧
      (∀ v e st', GridpointForecast w config lat lon st = (.ret v (some e), st') →
        (∃ v₀ st₁, Points w config lat lon st = (.ret v₀ (some e), st₁)) ∨
        ∃ p st₁, Points w config lat lon st = (.ret (some p) none, st₁) ∧
          ((apiCall w config (p.EndpointForecastGridData ++
              (if config.Units ≠ "" then "?units=" ++ config.Units else "")) st₁).1
            = .error e ∨
           ∃ res st₂,
             apiCall w config (p.EndpointForecastGridData ++
               (if config.Units ≠ "" then "?units=" ++ config.Units else "")) st₁
               = (.ok res, st₂) ∧
             decodeBody w.decodeGridpoint res = .error e)) ∧
      (∀ v e st', HourlyForecast w config lat lon st = (.ret v (some e), st') →
        (∃ v₀ st₁, Points w config lat lon st = (.ret v₀ (some e), st₁)) ∨
        ∃ p st₁, Points w config lat lon st = (.ret (some p) none, st₁) ∧
          ((apiCall w config (p.EndpointForecastHourly ++
              (if config.Units ≠ "" then "?units=" ++ config.Units else "")) st₁).1
            = .error e ∨
           ∃ res st₂,
             apiCall w config (p.EndpointForecastHourly ++
               (if config.Units ≠ "" then "?units=" ++ config.Units else "")) st₁
               = (.ok res, st₂) ∧
             decodeBody w.decodeHourly res = .error e)) ∧
      (∀ v e st', Alerts w config lat lon st = (.ret v (some e), st') →
        (apiCall w config
          (config.BaseURL ++ "/alerts/active?point=" ++ lat ++ "," ++ lon) st).1
          = .error e ∨
        ∃ res st₂,
          apiCall w config
            (config.BaseURL ++ "/alerts/active?point=" ++ lat ++ "," ++ lon) st
            = (.ok res, st₂) ∧
          (res.body = .error e ∨ res.body = .ok (.error e) ∨
           ∃ j, res.body = .ok (.ok j) ∧ unmarshalAlertsResponse j = .error e)) ∧
      (∀ v e st',
        LatestStationObservation w config sid st = (.ret v (some e), st') →
        (∃ e₀,
          (apiCall w config (sid ++ "/observations/latest") st).1 = .error e₀ ∧
          e = "failed to get latest observations: " ++ e₀) ∨
        ∃ res st₂,
          apiCall w config (sid ++ "/observations/latest") st = (.ok res, st₂) ∧
          decodeBody w.decodeObservation res = .error e) := by
  intro w config lat lon sid st
  exact ⟨points_err_source w config lat lon st,
    office_err_source w config sid st,
    stations_err_source w config lat lon st,
    forecast_err_source w config lat lon st,
    gridpoint_err_source w config lat lon st,
    hourly_err_source w config lat lon st,
    alerts_err_source w config lat lon st,
    observation_err_source w config sid st⟩

/-- Witness for C9 (amended), LatestStationObservation conjunct, at a
concrete 404 transport. -/
theorem error_propagation_amended_witness :
    (∃ e₀,
      (apiCall w404 cfg0 ("https://sx/KX" ++ "/observations/latest") st0).1
        = .error e₀ ∧
      ("failed to get latest observations: 404 404 Not Found" : String)
        = "failed to get latest observations: " ++ e₀) ∨
    ∃ res st₂,
      apiCall w404 cfg0 ("https://sx/KX" ++ "/observations/latest") st0
        = (.ok res, st₂) ∧
      decodeBody w404.decodeObservation res =
        .error "failed to get latest observations: 404 404 Not Found" :=
  (error_propagation_amended w404 cfg0 "1" "2" "https://sx/KX" st0).2.2.2.2.2.2.2
    {} "failed to get latest observations: 404 404 Not Found"
    (LatestStationObservation w404 cfg0 "https://sx/KX" st0).2 rfl

end Noaa
